import Mathlib

/-!
# SystemServer: the service supervisor of `Userland/Services/SystemServer/main.cpp`

The development embeds the supervisor's functions as state-passing Lean functions.

* `State` holds the two globals of `main.cpp` (`g_system_mode`, `g_services`), the state that
  lives behind `Service.h` (`world`: the service objects and the pid table `find_by_pid` reads),
  and `calls`, the record of the `Service` and operating-system calls made so far, in order.
* `Service.h`, `LibCore` and `AK` are outside the sources at hand.  What `main.cpp` uses of them is
  taken as a parameter: `ServiceOps` for the `Service` interface, `Sys` for files, configuration
  sources and the probes.
* `dbgln`, `dbgln_if` and `perror` only write to the debug log and are left out.
-/

namespace SystemServer

deriving instance DecidableEq for Except

/-- AK's `ByteString` and `StringView`, as strings of characters. -/
abbrev ByteString := String

/-- Source: `static constexpr StringView text_system_mode = "text"sv;` -/
def text_system_mode : ByteString := "text"

/-- Source: `static constexpr StringView selftest_system_mode = "self-test"sv;` -/
def selftest_system_mode : ByteString := "self-test"

/-- Source: `static constexpr StringView graphical_system_mode = "graphical"sv;` -/
def graphical_system_mode : ByteString := "graphical"

/-- One call made by the supervisor, with its outcome: the instrumentation the properties are
stated over. -/
inductive Call (Svc : Type) where
  /-- Source: `service->setup_sockets()`, and whether it succeeded. -/
  | setup_sockets (service : Svc) (ok : Bool)
  /-- Source: `service->activate()`, and whether it succeeded. -/
  | activate (service : Svc) (ok : Bool)
  /-- Source: `service->did_exit(status)`, and whether it succeeded. -/
  | did_exit (service : Svc) (status : Int) (ok : Bool)
  /-- Source: `lstat("/dev/gpu/connector0", ..)` and its return code. -/
  | lstat (rc : Int)
  /-- Source: `sleep(seconds)`. -/
  | sleep (seconds : Nat)
  deriving DecidableEq, Repr

/-- The supervisor's state. -/
structure State (Svc World : Type) where
  /-- Source: `ByteString g_system_mode` -/
  g_system_mode : ByteString
  /-- Source: `Vector<NonnullRefPtr<Service>> g_services` -/
  g_services : List Svc
  /-- What lives behind `Service.h`: the service objects and the table of process ids. -/
  world : World
  /-- The calls made so far, oldest first. -/
  calls : List (Call Svc)

/-- The state at program start: `g_system_mode = graphical_system_mode`, `g_services` empty. -/
def State.initial {Svc World : Type} (world : World) : State Svc World :=
  { g_system_mode := graphical_system_mode, g_services := [], world := world, calls := [] }

/-- Modelled from the spec: `Core::ConfigFile` (LibCore) is missing; it is "an ordered sequence of
named groups, each a string-keyed mapping". -/
structure ConfigFile where
  /-- The groups in order: name and key/value entries. -/
  entries : List (ByteString × List (ByteString × ByteString))
  deriving DecidableEq, Repr

/-- Method `config.groups()`: the group names, in order. -/
def ConfigFile.groups (config : ConfigFile) : List ByteString :=
  config.entries.map Prod.fst

/-- The part of `Service.h` that `main.cpp` calls.  `Svc` stands for a `NonnullRefPtr<Service>`;
the mutable part of a service lives in `World`. -/
structure ServiceOps (Svc World Err : Type) where
  /-- Modelled from the spec: `Service::try_create(config, name)` is missing; the loader turns a
  configuration group into a service definition or a validation error. -/
  try_create : ConfigFile → ByteString → Except Err Svc
  /-- Modelled from the spec: `is_enabled_for_system_mode` is missing; the set of boot modes a
  service definition is enabled for is immutable. -/
  is_enabled_for_system_mode : Svc → ByteString → Bool
  /-- Source: `ErrorOr<void> Service::setup_sockets()` -/
  setup_sockets : Svc → World → Except Err Unit × World
  /-- Source: `ErrorOr<void> Service::activate()` -/
  activate : Svc → World → Except Err Unit × World
  /-- Source: `static Service* Service::find_by_pid(pid_t)`; `none` is `nullptr`. -/
  find_by_pid : World → Int → Option Svc
  /-- Source: `ErrorOr<void> Service::did_exit(int status)` -/
  did_exit : Svc → Int → World → Except Err Unit × World

/-- An opened `Core::File`, as far as `main.cpp` uses it. -/
structure File (Err : Type) where
  /-- Source: `file->read_until_eof()` -/
  read_until_eof : Except Err ByteString

/-- The operating system and library calls of `main.cpp` other than those of `Service.h`. -/
structure Sys (Err : Type) where
  /-- Source: `Core::System::pledge(..)` -/
  pledge : Except Err Unit
  /-- Source: `Core::File::open("/sys/kernel/system_mode"sv, Core::File::OpenMode::Read)` -/
  open_system_mode : Except Err (File Err)
  /-- Source: `ByteString::copy(buffer, Chomp)` -/
  chomp : ByteString → ByteString
  /-- The return code of the `lstat("/dev/gpu/connector0", ..)` call of attempt number `n`. -/
  lstat_gpu_connector : Nat → Int
  /-- Source: `Core::ConfigFile::open_for_system(name)` -/
  open_for_system : ByteString → Except Err ConfigFile
  /-- Source: `Core::ConfigFile::open_for_app(name)` -/
  open_for_app : ByteString → Except Err ConfigFile
  /-- Whether `GUI::Application::try_create(arguments)` succeeds (it is under `MUST`). -/
  application_created : Bool
  /-- Whether `Gfx::Bitmap::load_from_file("/res/logo/logo.png"sv)` succeeds. -/
  logo_loaded : Bool
  /-- Whether `GUI::Window::try_create()` succeeds (it is under `MUST`). -/
  window_created : Bool

/-- Modelled from the spec: `ByteString::copy(.., Chomp)` (AK) is missing; the claim calls the
result the chomped content.  Trailing line terminators and NUL characters are cut off. -/
def chomp (s : ByteString) : ByteString :=
  String.mk (s.data.reverse.dropWhile (fun c => c == '\x00' || c == '\n' || c == '\r')).reverse

variable {Svc World Err : Type}

/-- Appends one call to the record. -/
def State.record (st : State Svc World) (c : Call Svc) : State Svc World :=
  { st with calls := st.calls ++ [c] }

/-- Whether an `ErrorOr<void>` is not an error. -/
def succeeded (r : Except Err Unit) : Bool :=
  match r with
  | .ok _ => true
  | .error _ => false

/-! ## `sigchld_handler` -/

/-- What one pass through the body of a `for (;;)` loop ends with. -/
inductive LoopControl where
  /-- Statement `continue`, or the end of the body: on to the next pass. -/
  | next
  /-- Statement `break`. -/
  | leave
  deriving DecidableEq, Repr

/-- One pass through the body of the loop of `sigchld_handler`, for the `waitpid` result
`(pid, status)`. -/
def sigchld_handler.body (ops : ServiceOps Svc World Err) (pid status : Int)
    (st : State Svc World) : LoopControl × State Svc World :=
  if pid < 0 then
    (.leave, st)
  else if pid = 0 then
    (.leave, st)
  else
    match ops.find_by_pid st.world pid with
    | none => (.next, st)
    | some service =>
      let r := ops.did_exit service status st.world
      (.next, { st with world := r.2, calls := st.calls ++ [.did_exit service status (succeeded r.1)] })

/-- The handler of `SIGCHLD`.  `pending` is what the successive `waitpid(-1, &status, WNOHANG)` calls
return, as pairs `(pid, status)`.  The result is the state when the loop is left together with the
`waitpid` results not consumed; `none` when the loop is still running after the last of
`pending`. -/
def sigchld_handler (ops : ServiceOps Svc World Err) :
    List (Int × Int) → State Svc World → Option (State Svc World × List (Int × Int))
  | [], _ => none
  | (pid, status) :: rest, st =>
    match sigchld_handler.body ops pid status st with
    | (.leave, st') => some (st', rest)
    | (.next, st') => sigchld_handler ops rest st'

/-! ## `determine_system_mode` -/

/-- The `ArmedScopeGuard declare_text_mode_on_failure` of `determine_system_mode`. -/
def declare_text_mode_on_failure (st : State Svc World) : State Svc World :=
  if st.g_system_mode != selftest_system_mode then
    { st with g_system_mode := text_system_mode }
  else
    st

/-- Function `SystemServer::determine_system_mode`: its result and the state it leaves. -/
def determine_system_mode (sys : Sys Err) (st : State Svc World) :
    Except Err Unit × State Svc World :=
  match sys.open_system_mode with
  | .error _ => (.ok (), declare_text_mode_on_failure st)
  | .ok file =>
    match file.read_until_eof with
    | .error _ => (.ok (), declare_text_mode_on_failure st)
    | .ok system_mode_buf =>
      let system_mode := sys.chomp system_mode_buf
      (.ok (), { st with g_system_mode := system_mode })

/-! ## `activate_services` -/

/-- The first loop of `activate_services`, over the group names still to visit.  Its result is
`services_to_activate`, or the error a `TRY` returned with. -/
def activate_services.collect (ops : ServiceOps Svc World Err) (config : ConfigFile) :
    List ByteString → State Svc World → List Svc → Except Err (List Svc) × State Svc World
  | [], st, services_to_activate => (.ok services_to_activate, st)
  | name :: rest, st, services_to_activate =>
    match ops.try_create config name with
    | .error e => (.error e, st)
    | .ok service =>
      if ops.is_enabled_for_system_mode service st.g_system_mode then
        match ops.setup_sockets service st.world with
        | (.error e, w) =>
          (.error e, { st with world := w, calls := st.calls ++ [.setup_sockets service false] })
        | (.ok _, w) =>
          activate_services.collect ops config rest
            { st with
              world := w
              calls := st.calls ++ [.setup_sockets service true]
              g_services := st.g_services ++ [service] }
            (services_to_activate ++ [service])
      else
        activate_services.collect ops config rest st services_to_activate

/-- The second loop of `activate_services`, over `services_to_activate`. -/
def activate_services.launch (ops : ServiceOps Svc World Err) :
    List Svc → State Svc World → State Svc World
  | [], st => st
  | service :: rest, st =>
    let r := ops.activate service st.world
    activate_services.launch ops rest
      { st with world := r.2, calls := st.calls ++ [.activate service (succeeded r.1)] }

/-- Function `SystemServer::activate_services`: its result and the state it leaves. -/
def activate_services (ops : ServiceOps Svc World Err) (config : ConfigFile)
    (st : State Svc World) : Except Err Unit × State Svc World :=
  match activate_services.collect ops config config.groups st [] with
  | (.error e, st') => (.error e, st')
  | (.ok services_to_activate, st') => (.ok (), activate_services.launch ops services_to_activate st')

/-! ## `activate_base_services_based_on_system_mode` -/

/-- The loop `for (int attempt = 0; attempt < 10; attempt++)`, with `remaining = 10 - attempt`
passes left.  The result is `found_gpu_device`. -/
def wait_for_gpu_device.loop (sys : Sys Err) :
    Nat → Nat → State Svc World → Bool × State Svc World
  | 0, _, st => (false, st)
  | remaining + 1, attempt, st =>
    let rc := sys.lstat_gpu_connector attempt
    let st1 := st.record (.lstat rc)
    if rc = 0 then
      (true, st1)
    else
      wait_for_gpu_device.loop sys remaining (attempt + 1) (st1.record (.sleep 1))

/-- The first statement of `activate_base_services_based_on_system_mode`: the `if` on
`g_system_mode == graphical_system_mode`. -/
def wait_for_gpu_device (sys : Sys Err) (st : State Svc World) : State Svc World :=
  if st.g_system_mode = graphical_system_mode then
    match wait_for_gpu_device.loop sys 10 0 st with
    | (true, st') => st'
    | (false, st') => { st' with g_system_mode := text_system_mode }
  else
    st

/-- Function `SystemServer::activate_base_services_based_on_system_mode`. -/
def activate_base_services_based_on_system_mode (sys : Sys Err) (ops : ServiceOps Svc World Err)
    (st : State Svc World) : Except Err Unit × State Svc World :=
  let st1 := wait_for_gpu_device sys st
  match sys.open_for_system "SystemServer" with
  | .error e => (.error e, st1)
  | .ok config => activate_services ops config st1

/-! ## `activate_user_services_based_on_system_mode` -/

/-- Function `SystemServer::activate_user_services_based_on_system_mode`. -/
def activate_user_services_based_on_system_mode (sys : Sys Err) (ops : ServiceOps Svc World Err)
    (st : State Svc World) : Except Err Unit × State Svc World :=
  match sys.open_for_system "SystemServerUser" with
  | .error e => (.error e, st)
  | .ok config =>
    match activate_services ops config st with
    | (.error e, st1) => (.error e, st1)
    | (.ok _, st1) =>
      match sys.open_for_app "SystemServer" with
      | .error _ => (.ok (), st1)
      | .ok app_config => activate_services ops app_config st1

/-! ## `serenity_main` -/

/-- How `serenity_main` ends, up to the call of `event_loop.exec()`. -/
inductive MainOutcome (Err : Type) where
  /-- A `TRY` returned with an error. -/
  | error (e : Err)
  /-- A `MUST` failed. -/
  | aborted
  /-- The call `event_loop.exec()` was reached. -/
  | event_loop
  deriving DecidableEq, Repr

/-- The boot-logo block of `serenity_main`: whether both its `MUST`s hold.  The block makes no
`Service` call and changes neither global. -/
def boot_logo (sys : Sys Err) : Bool :=
  sys.application_created && (!sys.logo_loaded || sys.window_created)

/-- Function `serenity_main`, with `user` the value of the `--user` option, up to `event_loop.exec()`. -/
def serenity_main (sys : Sys Err) (ops : ServiceOps Svc World Err) (user : Bool)
    (st : State Svc World) : MainOutcome Err × State Svc World :=
  match sys.pledge with
  | .error e => (.error e, st)
  | .ok _ =>
    let r := if !user then determine_system_mode sys st else (.ok (), st)
    match r with
    | (.error e, st1) => (.error e, st1)
    | (.ok _, st1) =>
      if (!user && st1.g_system_mode = graphical_system_mode) && !boot_logo sys then
        (.aborted, st1)
      else
        let r2 :=
          if !user then activate_base_services_based_on_system_mode sys ops st1
          else activate_user_services_based_on_system_mode sys ops st1
        match r2 with
        | (.error e, st2) => (.error e, st2)
        | (.ok _, st2) => (.event_loop, st2)

/-! ## The reaper in the spec's words -/

/-- Following the spec's words for the child reaper: each reaped process id in turn is looked up in
the registry; one that is not found is ignored, one that is found has `did_exit` called with the
reported status, whose result is only logged. -/
def reap_in_turn (ops : ServiceOps Svc World Err) :
    List (Int × Int) → State Svc World → State Svc World
  | [], st => st
  | (pid, status) :: rest, st =>
    match ops.find_by_pid st.world pid with
    | none => reap_in_turn ops rest st
    | some service =>
      reap_in_turn ops rest
        { st with
          world := (ops.did_exit service status st.world).2
          calls := st.calls ++
            [.did_exit service status (succeeded (ops.did_exit service status st.world).1)] }

/-! ## Reading the record of calls -/

/-- The calls of probing attempt `attempt` for the graphics device: the `lstat`, and the
`sleep(1)` that follows when it failed. -/
def probe_attempt (Svc : Type) (sys : Sys Err) (attempt : Nat) : List (Call Svc) :=
  if sys.lstat_gpu_connector attempt = 0 then
    [.lstat (sys.lstat_gpu_connector attempt)]
  else
    [.lstat (sys.lstat_gpu_connector attempt), .sleep 1]

/-- Whether a call is a `setup_sockets` call. -/
def Call.is_setup_sockets : Call Svc → Bool
  | .setup_sockets _ _ => true
  | _ => false

/-- Whether a call is an `activate` call. -/
def Call.is_activate : Call Svc → Bool
  | .activate _ _ => true
  | _ => false

/-- The calls recorded on the way from the state `st` to the state `st'`. -/
def new_calls (st st' : State Svc World) : List (Call Svc) :=
  st'.calls.drop st.calls.length

/-- The services `activate` was called on, in the order of the calls. -/
def activated (calls : List (Call Svc)) : List Svc :=
  calls.filterMap fun c =>
    match c with
    | .activate service _ => some service
    | _ => none

/-- The services whose `setup_sockets` call succeeded, in the order of the calls. -/
def sockets_set_up (calls : List (Call Svc)) : List Svc :=
  calls.filterMap fun c =>
    match c with
    | .setup_sockets service true => some service
    | _ => none

/-- No `setup_sockets` call comes after the first `activate` call. -/
def sockets_before_activation (calls : List (Call Svc)) : Bool :=
  (calls.dropWhile fun c => !c.is_activate).all fun c => !c.is_setup_sockets

/-- The services of the groups `names`, in order, that are created and are enabled for the mode
`mode`. -/
def enabled_services (ops : ServiceOps Svc World Err) (config : ConfigFile) (mode : ByteString)
    (names : List ByteString) : List Svc :=
  names.filterMap fun name =>
    match ops.try_create config name with
    | .ok service => if ops.is_enabled_for_system_mode service mode then some service else none
    | .error _ => none

/-- The world after `setup_sockets` has been applied to each of `services` in turn, starting in
`world`. -/
def setup_sockets_world (ops : ServiceOps Svc World Err) : List Svc → World → World
  | [], world => world
  | service :: rest, world => setup_sockets_world ops rest (ops.setup_sockets service world).2

/-- The world after `activate` has been applied to each of `services` in turn, starting in
`world`. -/
def activate_world (ops : ServiceOps Svc World Err) : List Svc → World → World
  | [], world => world
  | service :: rest, world => activate_world ops rest (ops.activate service world).2

/-- The `activate` calls on each of `services` in turn, starting in `world`, each with the outcome
`activate` has in the world the calls before it left. -/
def activate_record (ops : ServiceOps Svc World Err) : List Svc → World → List (Call Svc)
  | [], _ => []
  | service :: rest, world =>
    .activate service (succeeded (ops.activate service world).1) ::
      activate_record ops rest (ops.activate service world).2

/-! ## A concrete environment, for the examples -/

namespace Demo

/-- A service of the example environment. -/
structure Service where
  /-- The name of the configuration group. -/
  name : ByteString
  /-- The value of the `Executable` key. -/
  executable : ByteString
  /-- The values of the `Socket` keys. -/
  sockets : List ByteString
  /-- The values of the `SystemModes` keys; none stands for every mode. -/
  system_modes : List ByteString
  deriving DecidableEq, Repr

/-- The entries of the group `name`. -/
def group (config : ConfigFile) (name : ByteString) : List (ByteString × ByteString) :=
  match config.entries.find? (fun g => g.1 == name) with
  | some g => g.2
  | none => []

/-- The values of the key `key` in a group. -/
def values (entries : List (ByteString × ByteString)) (key : ByteString) : List ByteString :=
  (entries.filter (fun kv => kv.1 == key)).map Prod.snd

/-- The example `Service` interface: a group without an `Executable` key is malformed; a socket
with an empty path cannot be bound; the executable `/bin/missing` cannot be spawned; the world is
the table from process ids to services. -/
def ops : ServiceOps Service (List (Int × Service)) String where
  try_create config name :=
    match values (group config name) "Executable" with
    | [] => .error ("no executable: " ++ name)
    | exe :: _ =>
      .ok { name := name, executable := exe, sockets := values (group config name) "Socket",
            system_modes := values (group config name) "SystemModes" }
  is_enabled_for_system_mode service mode :=
    service.system_modes.isEmpty || service.system_modes.contains mode
  setup_sockets service world :=
    if service.sockets.contains "" then (.error "bind", world) else (.ok (), world)
  activate service world :=
    if service.executable = "/bin/missing" then (.error "exec", world)
    else (.ok (), world ++ [(100 + (world.length : Int), service)])
  find_by_pid world pid := (world.find? (fun e => e.1 == pid)).map Prod.snd
  did_exit service status world :=
    (if status = 0 then .ok () else .error "exited", world.filter (fun e => e.2 ≠ service))

/-- A group with an executable, sockets and modes. -/
def service_group (name exe : ByteString) (sockets modes : List ByteString) :
    ByteString × List (ByteString × ByteString) :=
  (name, [("Executable", exe)] ++ sockets.map (fun s => ("Socket", s)) ++
    modes.map (fun m => ("SystemModes", m)))

/-- The service `try_create` makes of `service_group name exe sockets modes`. -/
def service (name exe : ByteString) (sockets modes : List ByteString) : Service :=
  { name := name, executable := exe, sockets := sockets, system_modes := modes }

/-- An example operating system: the probe file holds `content`, the graphics device shows up at
attempt `gpu_at`, the configuration sources are the three given. -/
def sys (content : Except String (Except String ByteString)) (gpu_at : Nat)
    (system user app : Except String ConfigFile) : Sys String where
  pledge := .ok ()
  open_system_mode :=
    match content with
    | .error e => .error e
    | .ok r => .ok { read_until_eof := r }
  chomp := chomp
  lstat_gpu_connector n := if gpu_at ≤ n then 0 else -1
  open_for_system name :=
    if name = "SystemServer" then system
    else if name = "SystemServerUser" then user
    else .error "no such file"
  open_for_app name := if name = "SystemServer" then app else .error "no such file"
  application_created := true
  logo_loaded := true
  window_created := true

/-- A state in mode `mode` with nothing loaded. -/
def state (mode : ByteString) : State Service (List (Int × Service)) :=
  { g_system_mode := mode, g_services := [], world := [], calls := [] }

/-- The service `Echo`, enabled in the text and graphical modes. -/
def echo : Service := service "Echo" "/bin/echod" ["/run/echo.sock"] ["text", "graphical"]

/-- The service `Clock`, enabled in every mode. -/
def clock : Service := service "Clock" "/bin/clockd" ["/run/clock.sock"] []

/-- The service `Audio`, whose socket has an empty path and cannot be bound. -/
def audio : Service := service "Audio" "/bin/audiod" [""] []

/-- The service `Crashy`, whose executable cannot be spawned. -/
def crashy : Service := service "Crashy" "/bin/missing" [] []

/-- The service `Window`, enabled in the graphical mode only. -/
def window : Service := service "Window" "/bin/windowd" ["/run/window.sock"] ["graphical"]

/-- Two groups: the first has no `Executable` key, the second is `Echo`. -/
def broken_then_echo : ConfigFile :=
  { entries := [("Broken", [("Socket", "/run/broken.sock")]),
      service_group "Echo" "/bin/echod" ["/run/echo.sock"] ["text", "graphical"]] }

/-- Three groups: `Clock`, then `Audio` whose socket cannot be bound, then `Echo`. -/
def clock_audio_echo : ConfigFile :=
  { entries := [service_group "Clock" "/bin/clockd" ["/run/clock.sock"] [],
      service_group "Audio" "/bin/audiod" [""] [],
      service_group "Echo" "/bin/echod" ["/run/echo.sock"] ["text", "graphical"]] }

/-- Four groups that all load: `Clock`, `Crashy`, `Window`, `Echo`. -/
def clock_crashy_window_echo : ConfigFile :=
  { entries := [service_group "Clock" "/bin/clockd" ["/run/clock.sock"] [],
      service_group "Crashy" "/bin/missing" [] [],
      service_group "Window" "/bin/windowd" ["/run/window.sock"] ["graphical"],
      service_group "Echo" "/bin/echod" ["/run/echo.sock"] ["text", "graphical"]] }

/-- One group: `Clock`. -/
def only_clock : ConfigFile :=
  { entries := [service_group "Clock" "/bin/clockd" ["/run/clock.sock"] []] }

/-- One group: `Echo`. -/
def only_echo : ConfigFile :=
  { entries := [service_group "Echo" "/bin/echod" ["/run/echo.sock"] ["text", "graphical"]] }

/-- A registry with `Clock` running as process 100 and `Echo` as process 101. -/
def running : State Service (List (Int × Service)) :=
  { g_system_mode := "text", g_services := [clock, echo], world := [(100, clock), (101, echo)],
    calls := [] }

end Demo

/-! ## Theorems -/

/-- C3: when `determine_system_mode` cannot open or cannot read the system-mode probe file, it
returns success and the resulting `g_system_mode` is "self-test" if it was "self-test" before and
"text" otherwise. -/
theorem determine_system_mode_probe_failure (sys : Sys Err) (st : State Svc World)
    (h : (∃ e, sys.open_system_mode = .error e) ∨
      (∃ file e, sys.open_system_mode = .ok file ∧ file.read_until_eof = .error e)) :
    (determine_system_mode sys st).1 = .ok () ∧
    (determine_system_mode sys st).2.g_system_mode =
      if st.g_system_mode = "self-test" then "self-test" else "text" := by
  have key : determine_system_mode sys st = (.ok (), declare_text_mode_on_failure st) := by
    rcases h with ⟨e, he⟩ | ⟨file, e, hf, he⟩
    · simp [determine_system_mode, he]
    · simp [determine_system_mode, hf, he]
  rw [key]
  refine ⟨rfl, ?_⟩
  by_cases hm : st.g_system_mode = "self-test"
  · simp [declare_text_mode_on_failure, selftest_system_mode, hm]
  · simp [declare_text_mode_on_failure, selftest_system_mode, text_system_mode, hm]

/-- Witness of C3: the probe file cannot be opened while the mode is "graphical", and cannot be
read while the mode is "self-test". -/
theorem determine_system_mode_probe_failure_witness :
    ((determine_system_mode (Demo.sys (.error "ENOENT") 0 (.error "") (.error "") (.error ""))
        (Demo.state "graphical")).1 = .ok () ∧
      (determine_system_mode (Demo.sys (.error "ENOENT") 0 (.error "") (.error "") (.error ""))
        (Demo.state "graphical")).2.g_system_mode = "text") ∧
    ((determine_system_mode (Demo.sys (.ok (.error "EIO")) 0 (.error "") (.error "") (.error ""))
        (Demo.state "self-test")).1 = .ok () ∧
      (determine_system_mode (Demo.sys (.ok (.error "EIO")) 0 (.error "") (.error "") (.error ""))
        (Demo.state "self-test")).2.g_system_mode = "self-test") :=
  ⟨determine_system_mode_probe_failure
      (Demo.sys (.error "ENOENT") 0 (.error "") (.error "") (.error "")) (Demo.state "graphical")
      (Or.inl ⟨"ENOENT", rfl⟩),
   determine_system_mode_probe_failure
      (Demo.sys (.ok (.error "EIO")) 0 (.error "") (.error "") (.error "")) (Demo.state "self-test")
      (Or.inr ⟨_, "EIO", rfl, rfl⟩)⟩

/-- C4, as the code has it: for every content successfully read from the system-mode probe,
`determine_system_mode` returns success and stores the chomped content in `g_system_mode` without
comparing it with anything; a content that chomps to "text", "self-test" or "graphical" gives that
mode, and any other content is stored as it is. -/
theorem determine_system_mode_stores_content (sys : Sys Err) (st : State Svc World)
    (file : File Err) (content : ByteString)
    (hopen : sys.open_system_mode = .ok file) (hread : file.read_until_eof = .ok content) :
    (determine_system_mode sys st).1 = .ok () ∧
    (determine_system_mode sys st).2.g_system_mode = sys.chomp content := by
  simp [determine_system_mode, hopen, hread]

/-- Witness of C4 as amended: the probe file holds "self-test" and a line end. -/
theorem determine_system_mode_stores_content_witness :
    (determine_system_mode (Demo.sys (.ok (.ok "self-test\n")) 0 (.error "") (.error "") (.error ""))
        (Demo.state "graphical")).1 = .ok () ∧
    (determine_system_mode (Demo.sys (.ok (.ok "self-test\n")) 0 (.error "") (.error "") (.error ""))
        (Demo.state "graphical")).2.g_system_mode = chomp "self-test\n" :=
  determine_system_mode_stores_content
    (Demo.sys (.ok (.ok "self-test\n")) 0 (.error "") (.error "") (.error ""))
    (Demo.state "graphical") _ "self-test\n" rfl rfl

/-- Counterexample to C4 as stated: the probe file is read successfully and holds "Graphical" and
a line end, which chomps to none of "text", "self-test", "graphical"; the resulting
`g_system_mode` is "Graphical", not "text". -/
theorem determine_system_mode_other_content_kept :
    chomp "Graphical\n" = "Graphical" ∧
    chomp "Graphical\n" ∉ ["text", "self-test", "graphical"] ∧
    (determine_system_mode (Demo.sys (.ok (.ok "Graphical\n")) 0 (.error "") (.error "") (.error ""))
        (Demo.state "graphical")).2.g_system_mode = "Graphical" ∧
    (determine_system_mode (Demo.sys (.ok (.ok "Graphical\n")) 0 (.error "") (.error "") (.error ""))
        (Demo.state "graphical")).2.g_system_mode ≠ "text" := by
  decide

/-! ### The graphics-device probe -/

/-- The loop over the attempts: what it records and returns. -/
theorem wait_for_gpu_device.loop_spec (sys : Sys Err) (remaining : Nat) :
    ∀ (attempt : Nat) (st : State Svc World),
      ∃ k, k ≤ remaining ∧
        (wait_for_gpu_device.loop sys remaining attempt st).2 =
          { st with calls := st.calls ++ (List.range' attempt k).flatMap (probe_attempt Svc sys) } ∧
        (∀ i, i + 1 < k → sys.lstat_gpu_connector (attempt + i) ≠ 0) ∧
        (((wait_for_gpu_device.loop sys remaining attempt st).1 = false ∧ k = remaining ∧
            ∀ i, i < remaining → sys.lstat_gpu_connector (attempt + i) ≠ 0) ∨
          ((wait_for_gpu_device.loop sys remaining attempt st).1 = true ∧ 1 ≤ k ∧
            sys.lstat_gpu_connector (attempt + (k - 1)) = 0)) := by
  induction remaining with
  | zero =>
    intro attempt st
    exact ⟨0, le_refl 0, by simp [wait_for_gpu_device.loop], by simp,
      Or.inl ⟨by simp [wait_for_gpu_device.loop], rfl, by simp⟩⟩
  | succ n ih =>
    intro attempt st
    by_cases h0 : sys.lstat_gpu_connector attempt = 0
    · refine ⟨1, by omega, ?_, by simp, Or.inr ⟨?_, le_refl 1, by simpa using h0⟩⟩
      · simp [wait_for_gpu_device.loop, h0, probe_attempt, State.record]
      · simp [wait_for_gpu_device.loop, h0]
    · obtain ⟨k, hk, hst, hfail, hend⟩ := ih (attempt + 1)
        ((st.record (.lstat (sys.lstat_gpu_connector attempt))).record (.sleep 1))
      have hloop : wait_for_gpu_device.loop sys (n + 1) attempt st =
          wait_for_gpu_device.loop sys n (attempt + 1)
            ((st.record (.lstat (sys.lstat_gpu_connector attempt))).record (.sleep 1)) := by
        simp [wait_for_gpu_device.loop, h0]
      refine ⟨k + 1, by omega, ?_, ?_, ?_⟩
      · rw [hloop, hst]
        simp [State.record, List.range'_succ, List.flatMap_cons, probe_attempt, h0]
      · intro i hi
        cases i with
        | zero => simpa using h0
        | succ j =>
          have := hfail j (by omega)
          rwa [show attempt + (j + 1) = attempt + 1 + j by omega]
      · rw [hloop]
        rcases hend with ⟨hf, hkn, hall⟩ | ⟨ht, hk1, hlast⟩
        · refine Or.inl ⟨hf, by omega, ?_⟩
          intro i hi
          cases i with
          | zero => simpa using h0
          | succ j =>
            have := hall j (by omega)
            rwa [show attempt + (j + 1) = attempt + 1 + j by omega]
        · refine Or.inr ⟨ht, by omega, ?_⟩
          rwa [show attempt + (k + 1 - 1) = attempt + 1 + (k - 1) by omega]

/-- C5: entered with mode "graphical", `activate_base_services_based_on_system_mode` makes `k`
probes of the graphics device with `1 ≤ k ≤ 10`, one after the other and nothing else; every probe
before the last one failed, so it stops at the first success; either all ten probes failed and the
mode is "text", or the last probe succeeded and the mode stays "graphical", so the mode is "text"
exactly when all ten probes failed; entered with any other mode it probes nothing and leaves the
state as it is; service activation then runs in the resulting state. -/
theorem activate_base_services_gpu_probe (sys : Sys Err) (ops : ServiceOps Svc World Err)
    (st : State Svc World) :
    (st.g_system_mode = "graphical" →
      ∃ k, 1 ≤ k ∧ k ≤ 10 ∧
        (wait_for_gpu_device sys st).calls =
          st.calls ++ (List.range k).flatMap (probe_attempt Svc sys) ∧
        (wait_for_gpu_device sys st).g_services = st.g_services ∧
        (wait_for_gpu_device sys st).world = st.world ∧
        (∀ i, i + 1 < k → sys.lstat_gpu_connector i ≠ 0) ∧
        ((k = 10 ∧ (∀ i, i < 10 → sys.lstat_gpu_connector i ≠ 0) ∧
            (wait_for_gpu_device sys st).g_system_mode = "text") ∨
          (sys.lstat_gpu_connector (k - 1) = 0 ∧
            (wait_for_gpu_device sys st).g_system_mode = "graphical")) ∧
        ((wait_for_gpu_device sys st).g_system_mode = "text" ↔
          ∀ i, i < 10 → sys.lstat_gpu_connector i ≠ 0)) ∧
    (st.g_system_mode ≠ "graphical" → wait_for_gpu_device sys st = st) ∧
    activate_base_services_based_on_system_mode sys ops st =
      match sys.open_for_system "SystemServer" with
      | .error e => (.error e, wait_for_gpu_device sys st)
      | .ok config => activate_services ops config (wait_for_gpu_device sys st) := by
  refine ⟨?_, ?_, rfl⟩
  · intro hg
    obtain ⟨k, hk, hst, hfail, hend⟩ := wait_for_gpu_device.loop_spec sys 10 0 st
    have hfail0 : ∀ i, i + 1 < k → sys.lstat_gpu_connector i ≠ 0 := by
      intro i hi
      simpa using hfail i hi
    rcases hend with ⟨hf, hk10, hall⟩ | ⟨ht, hk1, hlast⟩
    · have hw : wait_for_gpu_device sys st =
          { (wait_for_gpu_device.loop sys 10 0 st).2 with g_system_mode := text_system_mode } := by
        unfold wait_for_gpu_device
        rw [if_pos (by simpa [graphical_system_mode] using hg)]
        split
        · next st' heq => rw [heq] at hf; simp at hf
        · next st' heq => rw [heq]
      have hall0 : ∀ i, i < 10 → sys.lstat_gpu_connector i ≠ 0 := by
        intro i hi
        simpa using hall i hi
      have hmode : (wait_for_gpu_device sys st).g_system_mode = "text" := by
        rw [hw]; rfl
      refine ⟨k, by omega, hk, ?_, ?_, ?_, hfail0, Or.inl ⟨hk10, hall0, hmode⟩,
        ⟨fun _ => hall0, fun _ => hmode⟩⟩
      · rw [hw, hst, List.range_eq_range']
      · rw [hw, hst]
      · rw [hw, hst]
    · have hw : wait_for_gpu_device sys st = (wait_for_gpu_device.loop sys 10 0 st).2 := by
        unfold wait_for_gpu_device
        rw [if_pos (by simpa [graphical_system_mode] using hg)]
        split
        · next st' heq => rw [heq]
        · next st' heq => rw [heq] at ht; simp at ht
      have hlast0 : sys.lstat_gpu_connector (k - 1) = 0 := by simpa using hlast
      have hmode : (wait_for_gpu_device sys st).g_system_mode = "graphical" := by
        rw [hw, hst]; exact hg
      refine ⟨k, hk1, hk, ?_, ?_, ?_, hfail0, Or.inr ⟨hlast0, hmode⟩, ⟨?_, ?_⟩⟩
      · rw [hw, hst, List.range_eq_range']
      · rw [hw, hst]
      · rw [hw, hst]
      · intro htext
        rw [hmode] at htext
        exact absurd htext (by decide)
      · intro hall
        exact absurd hlast0 (hall (k - 1) (by omega))
  · intro hg
    unfold wait_for_gpu_device
    rw [if_neg (by simpa [graphical_system_mode] using hg)]

/-- Witness of C5: the device shows up at the third probe (mode stays "graphical"), it never shows
up (ten probes, mode "text"), and the mode is "text" from the start (no probe). -/
theorem activate_base_services_gpu_probe_witness :
    ((wait_for_gpu_device (Demo.sys (.error "") 2 (.error "") (.error "") (.error ""))
        (Demo.state "graphical")).calls =
        [.lstat (-1), .sleep 1, .lstat (-1), .sleep 1, .lstat 0] ∧
      (wait_for_gpu_device (Demo.sys (.error "") 2 (.error "") (.error "") (.error ""))
        (Demo.state "graphical")).g_system_mode = "graphical") ∧
    (((wait_for_gpu_device (Demo.sys (.error "") 10 (.error "") (.error "") (.error ""))
        (Demo.state "graphical")).calls.filter (fun c => c != .sleep 1)) =
        List.replicate 10 (.lstat (-1)) ∧
      (wait_for_gpu_device (Demo.sys (.error "") 10 (.error "") (.error "") (.error ""))
        (Demo.state "graphical")).g_system_mode = "text") ∧
    (wait_for_gpu_device (Demo.sys (.error "") 10 (.error "") (.error "") (.error ""))
        (Demo.state "text")).calls = [] ∧
    (∃ k, 1 ≤ k ∧ k ≤ 10 ∧
      (wait_for_gpu_device (Demo.sys (.error "") 2 (.error "") (.error "") (.error ""))
        (Demo.state "graphical")).calls =
        (Demo.state "graphical").calls ++ (List.range k).flatMap
          (probe_attempt Demo.Service
            (Demo.sys (.error "") 2 (.error "") (.error "") (.error "")))) :=
  ⟨by decide, by decide, by decide,
    ((activate_base_services_gpu_probe
      (Demo.sys (.error "") 2 (.error "") (.error "") (.error "")) Demo.ops
      (Demo.state "graphical")).1 rfl).imp
      (fun _ h => ⟨h.1, h.2.1, h.2.2.1⟩)⟩

/-! ### The reaper -/

/-- C8: for every state and every reaped process id (a positive `waitpid` result) that
`find_by_pid` does not find, the pass of `sigchld_handler` for it calls `did_exit` on no service
and leaves the whole state (globals, registry, services, record of calls) as it was, and the
handler goes on with the next `waitpid` result. -/
theorem sigchld_handler_unknown_pid (ops : ServiceOps Svc World Err) (st : State Svc World)
    (pid status : Int) (rest : List (Int × Int))
    (hpid : 0 < pid) (hfind : ops.find_by_pid st.world pid = none) :
    sigchld_handler.body ops pid status st = (.next, st) ∧
    sigchld_handler ops ((pid, status) :: rest) st = sigchld_handler ops rest st := by
  have hbody : sigchld_handler.body ops pid status st = (.next, st) := by
    have h1 : ¬ pid < 0 := by omega
    have h2 : ¬ pid = 0 := by omega
    simp [sigchld_handler.body, h1, h2, hfind]
  exact ⟨hbody, by simp [sigchld_handler, hbody]⟩

/-- C9: for every sequence of `waitpid` results that is `n` positive process ids followed by `0`,
one run of `sigchld_handler` returns, having consumed exactly the `n` ids and the `0`, and has
done what the spec words say for each id in turn: `did_exit` with the reported status for each id
found in the registry at that moment, nothing for the others, whatever `did_exit` returns. -/
theorem sigchld_handler_drains (ops : ServiceOps Svc World Err)
    (children : List (Int × Int)) (status0 : Int) (rest : List (Int × Int))
    (hpos : ∀ c ∈ children, 0 < c.1) :
    ∀ st : State Svc World,
      sigchld_handler ops (children ++ (0, status0) :: rest) st =
        some (reap_in_turn ops children st, rest) := by
  induction children with
  | nil =>
    intro st
    simp [sigchld_handler, sigchld_handler.body, reap_in_turn]
  | cons c cs ih =>
    intro st
    obtain ⟨pid, status⟩ := c
    have hp : 0 < pid := hpos (pid, status) (by simp)
    have h1 : ¬ pid < 0 := by omega
    have h2 : ¬ pid = 0 := by omega
    have ih' := ih (fun c hc => hpos c (List.mem_cons_of_mem _ hc))
    cases hfind : ops.find_by_pid st.world pid with
    | none =>
      simp [sigchld_handler, sigchld_handler.body, reap_in_turn, h1, h2, hfind, ih']
    | some service =>
      simp [sigchld_handler, sigchld_handler.body, reap_in_turn, h1, h2, hfind, ih']

/-! ### `activate_services` -/

theorem enabled_services_nil (ops : ServiceOps Svc World Err) (config : ConfigFile)
    (mode : ByteString) : enabled_services ops config mode [] = [] := rfl

theorem enabled_services_cons_enabled (ops : ServiceOps Svc World Err) (config : ConfigFile)
    (mode name : ByteString) (names : List ByteString) (service : Svc)
    (hc : ops.try_create config name = .ok service)
    (he : ops.is_enabled_for_system_mode service mode = true) :
    enabled_services ops config mode (name :: names) =
      service :: enabled_services ops config mode names := by
  simp [enabled_services, List.filterMap_cons, hc, he]

theorem enabled_services_cons_disabled (ops : ServiceOps Svc World Err) (config : ConfigFile)
    (mode name : ByteString) (names : List ByteString) (service : Svc)
    (hc : ops.try_create config name = .ok service)
    (he : ops.is_enabled_for_system_mode service mode = false) :
    enabled_services ops config mode (name :: names) =
      enabled_services ops config mode names := by
  simp [enabled_services, List.filterMap_cons, hc, he]

/-- The first loop of `activate_services`: it gets through the first `k` groups, all of them
created, appends their enabled services to `g_services` after a successful `setup_sockets` each,
and then either is done or returns with the error of group `k`, which is a failed creation or a
failed `setup_sockets` of an enabled service. -/
theorem activate_services.collect_spec (ops : ServiceOps Svc World Err) (config : ConfigFile) :
    ∀ (groups : List ByteString) (st : State Svc World) (acc : List Svc),
      ∃ k, k ≤ groups.length ∧
        (∀ name ∈ groups.take k, ∃ s, ops.try_create config name = .ok s) ∧
        (activate_services.collect ops config groups st acc).2.g_system_mode = st.g_system_mode ∧
        (activate_services.collect ops config groups st acc).2.g_services =
          st.g_services ++ enabled_services ops config st.g_system_mode (groups.take k) ∧
        ((k = groups.length ∧
            (activate_services.collect ops config groups st acc).1 =
              .ok (acc ++ enabled_services ops config st.g_system_mode (groups.take k)) ∧
            (activate_services.collect ops config groups st acc).2.calls =
              st.calls ++ (enabled_services ops config st.g_system_mode (groups.take k)).map
                (fun s => Call.setup_sockets s true)) ∨
          (∃ name e, groups[k]? = some name ∧
            (activate_services.collect ops config groups st acc).1 = .error e ∧
            ((ops.try_create config name = .error e ∧
                (activate_services.collect ops config groups st acc).2.calls =
                  st.calls ++ (enabled_services ops config st.g_system_mode (groups.take k)).map
                    (fun s => Call.setup_sockets s true)) ∨
              (∃ s, ops.try_create config name = .ok s ∧
                ops.is_enabled_for_system_mode s st.g_system_mode = true ∧
                (activate_services.collect ops config groups st acc).2.calls =
                  st.calls ++ (enabled_services ops config st.g_system_mode (groups.take k)).map
                    (fun s => Call.setup_sockets s true) ++ [Call.setup_sockets s false])))) := by
  intro groups
  induction groups with
  | nil =>
    intro st acc
    exact ⟨0, le_refl 0, by simp, rfl, by simp [activate_services.collect, enabled_services],
      Or.inl ⟨rfl, by simp [activate_services.collect, enabled_services],
        by simp [activate_services.collect, enabled_services]⟩⟩
  | cons name rest ih =>
    intro st acc
    cases hc : ops.try_create config name with
    | error e =>
      refine ⟨0, Nat.zero_le _, by simp, ?_, ?_, Or.inr ⟨name, e, by simp, ?_, Or.inl ⟨hc, ?_⟩⟩⟩ <;>
        simp [activate_services.collect, hc, enabled_services]
    | ok service =>
      cases he : ops.is_enabled_for_system_mode service st.g_system_mode with
      | false =>
        obtain ⟨k, hk, hcr, hmode, hserv, hend⟩ := ih st acc
        have hstep : activate_services.collect ops config (name :: rest) st acc =
            activate_services.collect ops config rest st acc := by
          simp [activate_services.collect, hc, he]
        have hes : enabled_services ops config st.g_system_mode ((name :: rest).take (k + 1)) =
            enabled_services ops config st.g_system_mode (rest.take k) := by
          rw [List.take_succ_cons]
          exact enabled_services_cons_disabled ops config _ name _ service hc he
        refine ⟨k + 1, by simpa using hk, ?_, ?_, ?_, ?_⟩
        · intro n hn
          rw [List.take_succ_cons, List.mem_cons] at hn
          rcases hn with rfl | hn
          · exact ⟨service, hc⟩
          · exact hcr n hn
        · rw [hstep]; exact hmode
        · rw [hstep, hes]; exact hserv
        · rw [hstep, hes]
          rcases hend with ⟨hlen, hres, hcalls⟩ | ⟨n, e, hget, hres, hcase⟩
          · exact Or.inl ⟨by simp [hlen], hres, hcalls⟩
          · exact Or.inr ⟨n, e, by simpa using hget, hres, hcase⟩
      | true =>
        cases hs : ops.setup_sockets service st.world with
        | mk r w =>
          cases r with
          | error e =>
            refine ⟨0, Nat.zero_le _, by simp, ?_, ?_,
              Or.inr ⟨name, e, by simp, ?_, Or.inr ⟨service, hc, he, ?_⟩⟩⟩ <;>
              simp [activate_services.collect, hc, he, hs, enabled_services]
          | ok u =>
            obtain ⟨k, hk, hcr, hmode, hserv, hend⟩ := ih
              { st with
                world := w
                calls := st.calls ++ [.setup_sockets service true]
                g_services := st.g_services ++ [service] }
              (acc ++ [service])
            have hstep : activate_services.collect ops config (name :: rest) st acc =
                activate_services.collect ops config rest
                  { st with
                    world := w
                    calls := st.calls ++ [.setup_sockets service true]
                    g_services := st.g_services ++ [service] }
                  (acc ++ [service]) := by
              simp [activate_services.collect, hc, he, hs]
            have hes : enabled_services ops config st.g_system_mode ((name :: rest).take (k + 1)) =
                service :: enabled_services ops config st.g_system_mode (rest.take k) := by
              rw [List.take_succ_cons]
              exact enabled_services_cons_enabled ops config _ name _ service hc he
            simp only [List.append_assoc, List.singleton_append] at hserv hend
            refine ⟨k + 1, by simpa using hk, ?_, ?_, ?_, ?_⟩
            · intro n hn
              rw [List.take_succ_cons, List.mem_cons] at hn
              rcases hn with rfl | hn
              · exact ⟨service, hc⟩
              · exact hcr n hn
            · rw [hstep]; exact hmode
            · rw [hstep, hes]; exact hserv
            · rw [hstep, hes]
              rcases hend with ⟨hlen, hres, hcalls⟩ | ⟨n, e, hget, hres, hcase⟩
              · exact Or.inl ⟨by simp [hlen], hres, by simpa using hcalls⟩
              · refine Or.inr ⟨n, e, by simpa using hget, hres, ?_⟩
                rcases hcase with ⟨hcn, hcalls⟩ | ⟨s, hcn, hen, hcalls⟩
                · exact Or.inl ⟨hcn, by simpa using hcalls⟩
                · exact Or.inr ⟨s, hcn, hen, by simpa using hcalls⟩

/-- The second loop of `activate_services`: one `activate` call on each service, in order,
whatever the calls return; the globals stay as they are. -/
theorem activate_services.launch_spec (ops : ServiceOps Svc World Err) :
    ∀ (services : List Svc) (st : State Svc World),
      (activate_services.launch ops services st).g_system_mode = st.g_system_mode ∧
      (activate_services.launch ops services st).g_services = st.g_services ∧
      ∃ oks : List Bool, oks.length = services.length ∧
        (activate_services.launch ops services st).calls =
          st.calls ++ List.zipWith Call.activate services oks := by
  intro services
  induction services with
  | nil =>
    intro st
    exact ⟨rfl, rfl, [], rfl, by simp [activate_services.launch]⟩
  | cons service rest ih =>
    intro st
    obtain ⟨hmode, hserv, oks, hlen, hcalls⟩ := ih
      { st with
        world := (ops.activate service st.world).2
        calls := st.calls ++ [.activate service (succeeded (ops.activate service st.world).1)] }
    refine ⟨hmode, hserv, succeeded (ops.activate service st.world).1 :: oks, by simp [hlen], ?_⟩
    simp only [activate_services.launch]
    rw [hcalls]
    simp

/-! ### Reading the record -/

theorem new_calls_append (st st' : State Svc World) (cs : List (Call Svc))
    (h : st'.calls = st.calls ++ cs) : new_calls st st' = cs := by
  simp [new_calls, h]

theorem activated_append (a b : List (Call Svc)) :
    activated (a ++ b) = activated a ++ activated b := by
  simp [activated, List.filterMap_append]

theorem sockets_set_up_append (a b : List (Call Svc)) :
    sockets_set_up (a ++ b) = sockets_set_up a ++ sockets_set_up b := by
  simp [sockets_set_up, List.filterMap_append]

theorem activated_setup_sockets (services : List Svc) (ok : Bool) :
    activated (services.map fun s => Call.setup_sockets s ok) = [] := by
  induction services with
  | nil => rfl
  | cons s rest ih => simp [activated]

theorem sockets_set_up_setup_sockets (services : List Svc) :
    sockets_set_up (services.map fun s => Call.setup_sockets s true) = services := by
  induction services with
  | nil => rfl
  | cons s rest ih => simpa [sockets_set_up] using ih

theorem activated_activate (services : List Svc) :
    ∀ oks : List Bool, oks.length = services.length →
      activated (List.zipWith Call.activate services oks) = services := by
  induction services with
  | nil => intro oks _; simp [activated]
  | cons s rest ih =>
    intro oks h
    cases oks with
    | nil => simp at h
    | cons b bs =>
      have := ih bs (by simpa using h)
      simpa [activated] using this

theorem sockets_set_up_activate (services : List Svc) :
    ∀ oks : List Bool, sockets_set_up (List.zipWith Call.activate services oks) = [] := by
  induction services with
  | nil => intro oks; simp [sockets_set_up]
  | cons s rest ih =>
    intro oks
    cases oks with
    | nil => simp [sockets_set_up]
    | cons b bs => simpa [sockets_set_up] using ih bs

theorem is_activate_setup_sockets (services : List Svc) (ok : Bool) :
    ∀ c ∈ services.map (fun s => Call.setup_sockets s ok), c.is_activate = false := by
  intro c hc
  obtain ⟨s, _, rfl⟩ := List.mem_map.mp hc
  rfl

theorem is_setup_sockets_activate (services : List Svc) (oks : List Bool) :
    ∀ c ∈ List.zipWith Call.activate services oks, c.is_setup_sockets = false := by
  induction services generalizing oks with
  | nil => intro c hc; simp at hc
  | cons s rest ih =>
    cases oks with
    | nil => intro c hc; simp at hc
    | cons b bs =>
      intro c hc
      rw [List.zipWith_cons_cons, List.mem_cons] at hc
      rcases hc with rfl | hc
      · rfl
      · exact ih bs c hc

/-- Calls without an `activate` followed by calls without a `setup_sockets` keep the sockets
before the activation. -/
theorem sockets_before_activation_append (a b : List (Call Svc))
    (ha : ∀ c ∈ a, c.is_activate = false) (hb : ∀ c ∈ b, c.is_setup_sockets = false) :
    sockets_before_activation (a ++ b) = true := by
  induction a with
  | nil =>
    simp only [sockets_before_activation, List.nil_append, List.all_eq_true]
    intro c hc
    have hmem : c ∈ b := (List.dropWhile_suffix _).subset hc
    simp [hb c hmem]
  | cons x xs ih =>
    have hx : x.is_activate = false := ha x (by simp)
    have := ih (fun c hc => ha c (List.mem_cons_of_mem _ hc))
    simpa [sockets_before_activation, List.dropWhile_cons, hx] using this

/-- Calls that are neither `activate` nor `setup_sockets` in front change nothing. -/
theorem sockets_before_activation_skip (a b : List (Call Svc))
    (ha : ∀ c ∈ a, c.is_activate = false) :
    sockets_before_activation (a ++ b) = sockets_before_activation b := by
  induction a with
  | nil => rfl
  | cons x xs ih =>
    have hx : x.is_activate = false := ha x (by simp)
    have := ih (fun c hc => ha c (List.mem_cons_of_mem _ hc))
    simpa [sockets_before_activation, List.dropWhile_cons, hx] using this

/-- What one call of `activate_services` does: it gets through the first `k` groups, sets up the
sockets of their enabled services and appends them to `g_services`; then either all groups are
done and every one of these services is activated in order, or group `k` fails to be created or to
have its sockets set up, and the error is returned at once. -/
theorem activate_services_spec (ops : ServiceOps Svc World Err) (config : ConfigFile)
    (st : State Svc World) :
    ∃ k, k ≤ config.groups.length ∧
      (∀ name ∈ config.groups.take k, ∃ s, ops.try_create config name = .ok s) ∧
      (activate_services ops config st).2.g_system_mode = st.g_system_mode ∧
      (activate_services ops config st).2.g_services =
        st.g_services ++ enabled_services ops config st.g_system_mode (config.groups.take k) ∧
      (activate_services ops config st).2.calls =
        st.calls ++ new_calls st (activate_services ops config st).2 ∧
      ((k = config.groups.length ∧ (activate_services ops config st).1 = .ok () ∧
          ∃ oks : List Bool,
            oks.length =
              (enabled_services ops config st.g_system_mode (config.groups.take k)).length ∧
            new_calls st (activate_services ops config st).2 =
              (enabled_services ops config st.g_system_mode (config.groups.take k)).map
                  (fun s => Call.setup_sockets s true) ++
                List.zipWith Call.activate
                  (enabled_services ops config st.g_system_mode (config.groups.take k)) oks) ∨
        (∃ name e, config.groups[k]? = some name ∧
          (activate_services ops config st).1 = .error e ∧
          ((ops.try_create config name = .error e ∧
              new_calls st (activate_services ops config st).2 =
                (enabled_services ops config st.g_system_mode (config.groups.take k)).map
                  (fun s => Call.setup_sockets s true)) ∨
            (∃ s, ops.try_create config name = .ok s ∧
              ops.is_enabled_for_system_mode s st.g_system_mode = true ∧
              new_calls st (activate_services ops config st).2 =
                (enabled_services ops config st.g_system_mode (config.groups.take k)).map
                  (fun s => Call.setup_sockets s true) ++ [Call.setup_sockets s false])))) := by
  obtain ⟨k, hk, hcr, hmode, hserv, hend⟩ :=
    activate_services.collect_spec ops config config.groups st []
  refine ⟨k, hk, hcr, ?_⟩
  rcases hend with ⟨hlen, hres, hcalls⟩ | ⟨name, e, hget, hres, hcase⟩
  · cases hcol : activate_services.collect ops config config.groups st [] with
    | mk r st1 =>
      rw [hcol] at hmode hserv hres hcalls
      simp only at hmode hserv hres hcalls
      subst hres
      obtain ⟨hm2, hs2, oks, holen, hc2⟩ := activate_services.launch_spec ops
        ([] ++ enabled_services ops config st.g_system_mode (config.groups.take k)) st1
      have hact : activate_services ops config st = (.ok (), activate_services.launch ops
          ([] ++ enabled_services ops config st.g_system_mode (config.groups.take k)) st1) := by
        simp [activate_services, hcol]
      rw [hcalls] at hc2
      simp only [List.nil_append, List.append_assoc] at hm2 hs2 holen hc2 hact
      have hnew := new_calls_append st _ _ hc2
      rw [hact]
      refine ⟨hm2.trans hmode, hs2.trans hserv, ?_, Or.inl ⟨hlen, rfl, oks, holen, hnew⟩⟩
      rw [hnew]; exact hc2
  · cases hcol : activate_services.collect ops config config.groups st [] with
    | mk r st1 =>
      rw [hcol] at hmode hserv hres hcase
      simp only at hmode hserv hres hcase
      subst hres
      have hact : activate_services ops config st = (.error e, st1) := by
        simp [activate_services, hcol]
      rw [hact]
      refine ⟨hmode, hserv, ?_, Or.inr ⟨name, e, hget, rfl, ?_⟩⟩
      · rcases hcase with ⟨_, hcalls⟩ | ⟨s, _, _, hcalls⟩
        · rw [new_calls_append st st1 _ hcalls]; exact hcalls
        · rw [List.append_assoc] at hcalls
          rw [new_calls_append st st1 _ hcalls]; exact hcalls
      · rcases hcase with ⟨hcn, hcalls⟩ | ⟨s, hcn, hen, hcalls⟩
        · exact Or.inl ⟨hcn, new_calls_append st st1 _ hcalls⟩
        · rw [List.append_assoc] at hcalls
          exact Or.inr ⟨s, hcn, hen, new_calls_append st st1 _ hcalls⟩

/-! ### The effect on the world behind `Service.h` -/

theorem activated_activate_record (ops : ServiceOps Svc World Err) (services : List Svc) :
    ∀ world : World, activated (activate_record ops services world) = services := by
  induction services with
  | nil => intro world; rfl
  | cons s rest ih =>
    intro world
    have := ih (ops.activate s world).2
    simpa [activate_record, activated] using this

theorem sockets_set_up_activate_record (ops : ServiceOps Svc World Err) (services : List Svc) :
    ∀ world : World, sockets_set_up (activate_record ops services world) = [] := by
  induction services with
  | nil => intro world; rfl
  | cons s rest ih =>
    intro world
    have := ih (ops.activate s world).2
    simpa [activate_record, sockets_set_up] using this

theorem is_setup_sockets_activate_record (ops : ServiceOps Svc World Err)
    (services : List Svc) :
    ∀ (world : World), ∀ c ∈ activate_record ops services world, c.is_setup_sockets = false := by
  induction services with
  | nil => intro world c hc; simp [activate_record] at hc
  | cons s rest ih =>
    intro world c hc
    simp only [activate_record, List.mem_cons] at hc
    rcases hc with rfl | hc
    · rfl
    · exact ih _ c hc

/-- The first loop of `activate_services`, with its effect on the world: it applies
`setup_sockets` to the services `es` it appends, one after the other; when it returns an error
after a `setup_sockets` call, the error and the world are those `setup_sockets` gave for that
service in the world the calls before it left. -/
theorem activate_services.collect_world (ops : ServiceOps Svc World Err) (config : ConfigFile) :
    ∀ (groups : List ByteString) (st : State Svc World) (acc : List Svc),
      ∃ es : List Svc,
        (activate_services.collect ops config groups st acc).2.g_services = st.g_services ++ es ∧
        (((activate_services.collect ops config groups st acc).1 = .ok (acc ++ es) ∧
            (activate_services.collect ops config groups st acc).2.calls =
              st.calls ++ es.map (fun s => Call.setup_sockets s true) ∧
            (activate_services.collect ops config groups st acc).2.world =
              setup_sockets_world ops es st.world) ∨
          (∃ e, (activate_services.collect ops config groups st acc).1 = .error e ∧
            (((activate_services.collect ops config groups st acc).2.calls =
                  st.calls ++ es.map (fun s => Call.setup_sockets s true) ∧
                (activate_services.collect ops config groups st acc).2.world =
                  setup_sockets_world ops es st.world) ∨
              (∃ s, (activate_services.collect ops config groups st acc).2.calls =
                  st.calls ++ es.map (fun s => Call.setup_sockets s true) ++
                    [Call.setup_sockets s false] ∧
                ops.setup_sockets s (setup_sockets_world ops es st.world) =
                  (.error e, (activate_services.collect ops config groups st acc).2.world))))) := by
  intro groups
  induction groups with
  | nil =>
    intro st acc
    exact ⟨[], by simp [activate_services.collect],
      Or.inl ⟨by simp [activate_services.collect], by simp [activate_services.collect], rfl⟩⟩
  | cons name rest ih =>
    intro st acc
    cases hc : ops.try_create config name with
    | error e =>
      refine ⟨[], ?_, Or.inr ⟨e, ?_, Or.inl ⟨?_, ?_⟩⟩⟩ <;>
        simp [activate_services.collect, hc, setup_sockets_world]
    | ok service =>
      cases he : ops.is_enabled_for_system_mode service st.g_system_mode with
      | false =>
        have hstep : activate_services.collect ops config (name :: rest) st acc =
            activate_services.collect ops config rest st acc := by
          simp [activate_services.collect, hc, he]
        rw [hstep]
        exact ih st acc
      | true =>
        cases hs : ops.setup_sockets service st.world with
        | mk r w =>
          cases r with
          | error e =>
            refine ⟨[], ?_, Or.inr ⟨e, ?_, Or.inr ⟨service, ?_, ?_⟩⟩⟩ <;>
              simp [activate_services.collect, hc, he, hs, setup_sockets_world]
          | ok u =>
            have hstep : activate_services.collect ops config (name :: rest) st acc =
                activate_services.collect ops config rest
                  { st with
                    world := w
                    calls := st.calls ++ [.setup_sockets service true]
                    g_services := st.g_services ++ [service] }
                  (acc ++ [service]) := by
              simp [activate_services.collect, hc, he, hs]
            have hw : ∀ es : List Svc, setup_sockets_world ops (service :: es) st.world =
                setup_sockets_world ops es w := by
              intro es
              simp [setup_sockets_world, hs]
            obtain ⟨es, hserv, hend⟩ := ih
              { st with
                world := w
                calls := st.calls ++ [.setup_sockets service true]
                g_services := st.g_services ++ [service] }
              (acc ++ [service])
            rw [hstep]
            simp only [List.append_assoc, List.singleton_append] at hserv hend
            refine ⟨service :: es, hserv, ?_⟩
            simp only [hw, List.map_cons]
            simpa [List.append_assoc] using hend

/-- The second loop of `activate_services`, with its effect on the world: it applies `activate`
to each service in turn and records each call with the outcome it had. -/
theorem activate_services.launch_world (ops : ServiceOps Svc World Err) :
    ∀ (services : List Svc) (st : State Svc World),
      (activate_services.launch ops services st).world =
        activate_world ops services st.world ∧
      (activate_services.launch ops services st).calls =
        st.calls ++ activate_record ops services st.world := by
  intro services
  induction services with
  | nil =>
    intro st
    exact ⟨rfl, by simp [activate_services.launch, activate_record]⟩
  | cons service rest ih =>
    intro st
    obtain ⟨hworld, hcalls⟩ := ih
      { st with
        world := (ops.activate service st.world).2
        calls := st.calls ++ [.activate service (succeeded (ops.activate service st.world).1)] }
    refine ⟨?_, ?_⟩
    · simp only [activate_services.launch, activate_world]
      exact hworld
    · simp only [activate_services.launch, activate_record]
      rw [hcalls]
      simp

/-- One call of `activate_services`, with its effect on the world: `setup_sockets` is applied to
the services `es` it appends, in turn; on success `activate` is then applied to each of them in
turn; on a failing `setup_sockets` call the error returned and the world left are the ones that
call gave. -/
theorem activate_services_world (ops : ServiceOps Svc World Err) (config : ConfigFile)
    (st : State Svc World) :
    ∃ es : List Svc,
      (activate_services ops config st).2.g_services = st.g_services ++ es ∧
      (((activate_services ops config st).1 = .ok () ∧
          new_calls st (activate_services ops config st).2 =
            es.map (fun s => Call.setup_sockets s true) ++
              activate_record ops es (setup_sockets_world ops es st.world) ∧
          (activate_services ops config st).2.world =
            activate_world ops es (setup_sockets_world ops es st.world)) ∨
        (∃ e, (activate_services ops config st).1 = .error e ∧
          ((new_calls st (activate_services ops config st).2 =
                es.map (fun s => Call.setup_sockets s true) ∧
              (activate_services ops config st).2.world =
                setup_sockets_world ops es st.world) ∨
            (∃ s, new_calls st (activate_services ops config st).2 =
                es.map (fun s => Call.setup_sockets s true) ++ [Call.setup_sockets s false] ∧
              ops.setup_sockets s (setup_sockets_world ops es st.world) =
                (.error e, (activate_services ops config st).2.world))))) := by
  obtain ⟨es, hserv, hend⟩ := activate_services.collect_world ops config config.groups st []
  refine ⟨es, ?_⟩
  cases hcol : activate_services.collect ops config config.groups st [] with
  | mk r st1 =>
    rw [hcol] at hserv hend
    simp only at hserv hend
    rcases hend with ⟨hres, hcalls, hworld⟩ | ⟨e, hres, hcase⟩
    · subst hres
      obtain ⟨hw2, hc2⟩ := activate_services.launch_world ops ([] ++ es) st1
      obtain ⟨_, hs2, _⟩ := activate_services.launch_spec ops ([] ++ es) st1
      have hact : activate_services ops config st =
          (.ok (), activate_services.launch ops ([] ++ es) st1) := by
        simp [activate_services, hcol]
      rw [hcalls, hworld] at hc2
      rw [hworld] at hw2
      simp only [List.nil_append, List.append_assoc] at hw2 hc2 hs2 hact
      rw [hact]
      exact ⟨hs2.trans hserv, Or.inl ⟨rfl, new_calls_append st _ _ hc2, hw2⟩⟩
    · subst hres
      have hact : activate_services ops config st = (.error e, st1) := by
        simp [activate_services, hcol]
      rw [hact]
      refine ⟨hserv, Or.inr ⟨e, rfl, ?_⟩⟩
      rcases hcase with ⟨hcalls, hworld⟩ | ⟨s, hcalls, hsetup⟩
      · exact Or.inl ⟨new_calls_append st st1 _ hcalls, hworld⟩
      · rw [List.append_assoc] at hcalls
        exact Or.inr ⟨s, new_calls_append st st1 _ hcalls, hsetup⟩

/-- C6: for every configuration in which every group is created and no `setup_sockets` call of the
run fails, `activate_services` returns success, whatever the `activate` calls return; the services
it calls `activate` on are, call by call and in this order, the services of the groups that are
enabled for the current system mode, in the order of the groups, and no other; the world it leaves
is the one obtained by applying `setup_sockets` to each of these services in turn and then
`activate` to each of them in turn, an `activate` after a failed one included; each call is
recorded with the outcome it had, and these services are what is appended to `g_services`. -/
theorem activate_services_activates_enabled (ops : ServiceOps Svc World Err)
    (config : ConfigFile) (st : State Svc World)
    (hcreate : ∀ name ∈ config.groups, ∃ s, ops.try_create config name = .ok s)
    (hsock : ∀ s, Call.setup_sockets s false ∉ new_calls st (activate_services ops config st).2) :
    (activate_services ops config st).1 = .ok () ∧
    activated (new_calls st (activate_services ops config st).2) =
      enabled_services ops config st.g_system_mode config.groups ∧
    sockets_set_up (new_calls st (activate_services ops config st).2) =
      enabled_services ops config st.g_system_mode config.groups ∧
    (activate_services ops config st).2.world =
      activate_world ops (enabled_services ops config st.g_system_mode config.groups)
        (setup_sockets_world ops (enabled_services ops config st.g_system_mode config.groups)
          st.world) ∧
    new_calls st (activate_services ops config st).2 =
      (enabled_services ops config st.g_system_mode config.groups).map
          (fun s => Call.setup_sockets s true) ++
        activate_record ops (enabled_services ops config st.g_system_mode config.groups)
          (setup_sockets_world ops (enabled_services ops config st.g_system_mode config.groups)
            st.world) ∧
    (activate_services ops config st).2.g_services =
      st.g_services ++ enabled_services ops config st.g_system_mode config.groups := by
  have hold : (activate_services ops config st).1 = .ok () ∧
      sockets_set_up (new_calls st (activate_services ops config st).2) =
        enabled_services ops config st.g_system_mode config.groups := by
    obtain ⟨k, _, _, _, _, _, hend⟩ := activate_services_spec ops config st
    rcases hend with ⟨hlen, hres, oks, holen, hnew⟩ | ⟨name, e, hget, _, hcase⟩
    · rw [hlen, List.take_length] at hnew holen
      refine ⟨hres, ?_⟩
      rw [hnew, sockets_set_up_append, sockets_set_up_setup_sockets, sockets_set_up_activate]
      simp
    · exfalso
      rcases hcase with ⟨hcn, _⟩ | ⟨s, _, _, hnew⟩
      · obtain ⟨s, hs⟩ := hcreate name (List.mem_iff_getElem?.mpr ⟨k, hget⟩)
        rw [hs] at hcn
        cases hcn
      · exact hsock s (by rw [hnew]; simp)
  obtain ⟨hres, hsu⟩ := hold
  obtain ⟨es, hserv, hend⟩ := activate_services_world ops config st
  rcases hend with ⟨_, hnew, hworld⟩ | ⟨e, herr, _⟩
  · have hes : es = enabled_services ops config st.g_system_mode config.groups := by
      rw [← hsu, hnew, sockets_set_up_append, sockets_set_up_setup_sockets,
        sockets_set_up_activate_record]
      simp
    subst hes
    refine ⟨hres, ?_, hsu, hworld, hnew, hserv⟩
    rw [hnew, activated_append, activated_setup_sockets, activated_activate_record]
    rfl
  · rw [hres] at herr
    cases herr

/-- C10: after every call of `activate_services`, `g_services` is what it was before followed by
the enabled services of the first `k` groups, all of them created and with their sockets set up
successfully in this call, in group order; either `k` is the number of groups and the call returns
success, or group `k` is the first at which creation or `setup_sockets` fails, the call returns
that error, the services appended stay in `g_services` and `activate` has been called on no
service. -/
theorem activate_services_g_services (ops : ServiceOps Svc World Err)
    (config : ConfigFile) (st : State Svc World) :
    ∃ k, k ≤ config.groups.length ∧
      (∀ name ∈ config.groups.take k, ∃ s, ops.try_create config name = .ok s) ∧
      sockets_set_up (new_calls st (activate_services ops config st).2) =
        enabled_services ops config st.g_system_mode (config.groups.take k) ∧
      (activate_services ops config st).2.g_services =
        st.g_services ++ enabled_services ops config st.g_system_mode (config.groups.take k) ∧
      ((k = config.groups.length ∧ (activate_services ops config st).1 = .ok ()) ∨
        (∃ name e, config.groups[k]? = some name ∧
          (activate_services ops config st).1 = .error e ∧
          activated (new_calls st (activate_services ops config st).2) = [] ∧
          (ops.try_create config name = .error e ∨
            ∃ s, ops.try_create config name = .ok s ∧
              ops.is_enabled_for_system_mode s st.g_system_mode = true ∧
              Call.setup_sockets s false ∈
                new_calls st (activate_services ops config st).2))) := by
  obtain ⟨k, hk, hcr, _, hserv, _, hend⟩ := activate_services_spec ops config st
  refine ⟨k, hk, hcr, ?_, hserv, ?_⟩
  · rcases hend with ⟨_, _, oks, _, hnew⟩ | ⟨_, _, _, _, ⟨_, hnew⟩ | ⟨s, _, _, hnew⟩⟩
    · rw [hnew, sockets_set_up_append, sockets_set_up_setup_sockets, sockets_set_up_activate]
      simp
    · rw [hnew, sockets_set_up_setup_sockets]
    · rw [hnew, sockets_set_up_append, sockets_set_up_setup_sockets]
      simp [sockets_set_up]
  · rcases hend with ⟨hlen, hres, _⟩ | ⟨name, e, hget, hres, hcase⟩
    · exact Or.inl ⟨hlen, hres⟩
    · refine Or.inr ⟨name, e, hget, hres, ?_, ?_⟩
      · rcases hcase with ⟨_, hnew⟩ | ⟨s, _, _, hnew⟩
        · rw [hnew, activated_setup_sockets]
        · rw [hnew, activated_append, activated_setup_sockets]
          simp [activated]
      · rcases hcase with ⟨hcn, _⟩ | ⟨s, hcn, hen, hnew⟩
        · exact Or.inl hcn
        · exact Or.inr ⟨s, hcn, hen, by rw [hnew]; simp⟩

/-- C1, as the code has it: when `Service::try_create` fails for the group at position `j` of the
configuration, `activate_services` returns an error and calls `activate` on no service; only
enabled services of groups before position `j` (those of the first `k ≤ j` groups) have their
sockets set up and are appended to `g_services`, and no later group is loaded. -/
theorem activate_services_creation_failure (ops : ServiceOps Svc World Err)
    (config : ConfigFile) (st : State Svc World) (j : Nat) (name : ByteString) (e : Err)
    (hj : config.groups[j]? = some name) (hbad : ops.try_create config name = .error e) :
    (∃ e', (activate_services ops config st).1 = .error e') ∧
    activated (new_calls st (activate_services ops config st).2) = [] ∧
    ∃ k, k ≤ j ∧
      sockets_set_up (new_calls st (activate_services ops config st).2) =
        enabled_services ops config st.g_system_mode (config.groups.take k) ∧
      (activate_services ops config st).2.g_services =
        st.g_services ++ enabled_services ops config st.g_system_mode (config.groups.take k) := by
  obtain ⟨k, hk, hcr, _, hserv, _, hend⟩ := activate_services_spec ops config st
  have hkj : k ≤ j := by
    by_contra hlt
    have hmem : name ∈ config.groups.take k := by
      rw [List.mem_iff_getElem?]
      exact ⟨j, by rw [List.getElem?_take_of_lt (by omega)]; exact hj⟩
    obtain ⟨s, hs⟩ := hcr name hmem
    rw [hs] at hbad
    cases hbad
  have hjlen : j < config.groups.length := by
    by_contra hge
    rw [List.getElem?_eq_none (by omega)] at hj
    cases hj
  rcases hend with ⟨hlen, _⟩ | ⟨n, e', _, hres, ⟨_, hnew⟩ | ⟨s, _, _, hnew⟩⟩
  · omega
  · refine ⟨⟨e', hres⟩, ?_, k, hkj, ?_, hserv⟩
    · rw [hnew, activated_setup_sockets]
    · rw [hnew, sockets_set_up_setup_sockets]
  · refine ⟨⟨e', hres⟩, ?_, k, hkj, ?_, hserv⟩
    · rw [hnew, activated_append, activated_setup_sockets]
      simp [activated]
    · rw [hnew, sockets_set_up_append, sockets_set_up_setup_sockets]
      simp [sockets_set_up]

/-- C7, as the code has it: when a `setup_sockets` call fails in a call of `activate_services`,
the call returns at once with the very error that `setup_sockets` call gave, in the world that
call left, the failing service having been reached after `setup_sockets` was applied in turn to
the services set up before it; the failed call is the last call made, so no later group has its
sockets set up; `activate` is called on no service, neither the failing one nor any other; the
services whose sockets were set up before stay appended to `g_services`. -/
theorem activate_services_socket_failure (ops : ServiceOps Svc World Err)
    (config : ConfigFile) (st : State Svc World) (service : Svc)
    (hfail : Call.setup_sockets service false ∈
      new_calls st (activate_services ops config st).2) :
    (∃ e, (activate_services ops config st).1 = .error e ∧
      ops.setup_sockets service
          (setup_sockets_world ops
            (sockets_set_up (new_calls st (activate_services ops config st).2)) st.world) =
        (.error e, (activate_services ops config st).2.world)) ∧
    activated (new_calls st (activate_services ops config st).2) = [] ∧
    new_calls st (activate_services ops config st).2 =
      (sockets_set_up (new_calls st (activate_services ops config st).2)).map
        (fun s => Call.setup_sockets s true) ++ [Call.setup_sockets service false] ∧
    (activate_services ops config st).2.g_services =
      st.g_services ++ sockets_set_up (new_calls st (activate_services ops config st).2) := by
  obtain ⟨es, hserv, hend⟩ := activate_services_world ops config st
  rcases hend with ⟨_, hnew, _⟩ | ⟨e, hres, ⟨hnew, _⟩ | ⟨s, hnew, hsetup⟩⟩
  · exfalso
    rw [hnew, List.mem_append] at hfail
    rcases hfail with h | h
    · obtain ⟨s, _, hs⟩ := List.mem_map.mp h
      cases hs
    · have := is_setup_sockets_activate_record ops es _ _ h
      simp [Call.is_setup_sockets] at this
  · exfalso
    rw [hnew] at hfail
    obtain ⟨s, _, hs⟩ := List.mem_map.mp hfail
    cases hs
  · have hs : service = s := by
      rw [hnew, List.mem_append] at hfail
      rcases hfail with h | h
      · obtain ⟨s', _, hs'⟩ := List.mem_map.mp h
        cases hs'
      · simpa using h
    subst hs
    have hsu : sockets_set_up (new_calls st (activate_services ops config st).2) = es := by
      rw [hnew, sockets_set_up_append, sockets_set_up_setup_sockets]
      simp [sockets_set_up]
    refine ⟨⟨e, hres, ?_⟩, ?_, ?_, ?_⟩
    · rw [hsu]; exact hsetup
    · rw [hnew, activated_append, activated_setup_sockets]
      simp [activated]
    · rw [hsu]; exact hnew
    · rw [hsu]; exact hserv

/-! ### The order of `setup_sockets` and `activate` calls -/

theorem new_calls_self (st : State Svc World) : new_calls st st = [] := by
  simp [new_calls]

theorem new_calls_congr (st st1 st' : State Svc World) (h : st1.calls = st.calls) :
    new_calls st st' = new_calls st1 st' := by
  simp [new_calls, h]

theorem determine_system_mode_calls (sys : Sys Err) (st : State Svc World) :
    (determine_system_mode sys st).2.calls = st.calls := by
  unfold determine_system_mode declare_text_mode_on_failure
  split
  · split <;> rfl
  · split
    · split <;> rfl
    · rfl

theorem determine_system_mode_ok (sys : Sys Err) (st : State Svc World) :
    determine_system_mode sys st = (.ok (), (determine_system_mode sys st).2) := by
  unfold determine_system_mode
  split
  · rfl
  · split <;> rfl

theorem probe_attempt_calls (sys : Sys Err) (attempt : Nat) :
    ∀ c ∈ probe_attempt Svc sys attempt, c.is_activate = false := by
  intro c hc
  unfold probe_attempt at hc
  split at hc
  · simp only [List.mem_singleton] at hc
    subst hc; rfl
  · simp only [List.mem_cons, List.mem_singleton, List.not_mem_nil, or_false] at hc
    rcases hc with rfl | rfl <;> rfl

/-- The probing of the graphics device only adds `lstat` and `sleep` calls. -/
theorem wait_for_gpu_device_calls (sys : Sys Err) (st : State Svc World) :
    ∃ probes : List (Call Svc), (wait_for_gpu_device sys st).calls = st.calls ++ probes ∧
      ∀ c ∈ probes, c.is_activate = false := by
  unfold wait_for_gpu_device
  split
  · obtain ⟨k, _, hst, _, _⟩ := wait_for_gpu_device.loop_spec sys 10 0 st
    refine ⟨(List.range' 0 k).flatMap (probe_attempt Svc sys), ?_, ?_⟩
    · split
      · next st' heq => rw [heq] at hst; simp only at hst; rw [hst]
      · next st' heq => rw [heq] at hst; simp only at hst; rw [hst]
    · intro c hc
      obtain ⟨i, _, hi⟩ := List.mem_flatMap.mp hc
      exact probe_attempt_calls sys i c hi
  · exact ⟨[], by simp, by simp⟩

/-- Within one call of `activate_services`, no `setup_sockets` call comes after an `activate`
call. -/
theorem activate_services_barrier (ops : ServiceOps Svc World Err) (config : ConfigFile)
    (st : State Svc World) :
    sockets_before_activation (new_calls st (activate_services ops config st).2) = true := by
  obtain ⟨k, _, _, _, _, _, hend⟩ := activate_services_spec ops config st
  rcases hend with ⟨_, _, oks, _, hnew⟩ | ⟨_, _, _, _, ⟨_, hnew⟩ | ⟨s, _, _, hnew⟩⟩
  · rw [hnew]
    exact sockets_before_activation_append _ _ (is_activate_setup_sockets _ true)
      (is_setup_sockets_activate _ oks)
  · rw [hnew, ← List.append_nil (List.map _ _)]
    exact sockets_before_activation_append _ _ (is_activate_setup_sockets _ true) (by simp)
  · rw [hnew, ← List.append_nil (_ ++ [_])]
    refine sockets_before_activation_append _ _ ?_ (by simp)
    intro c hc
    rcases List.mem_append.mp hc with h | h
    · exact is_activate_setup_sockets _ true c h
    · simp only [List.mem_singleton] at h
      subst h; rfl

theorem activate_services_calls (ops : ServiceOps Svc World Err) (config : ConfigFile)
    (st : State Svc World) :
    (activate_services ops config st).2.calls =
      st.calls ++ new_calls st (activate_services ops config st).2 := by
  obtain ⟨_, _, _, _, _, h, _⟩ := activate_services_spec ops config st
  exact h

/-- A system-boot activation: the probes of the graphics device, then one call of
`activate_services`. -/
theorem activate_base_services_barrier (sys : Sys Err) (ops : ServiceOps Svc World Err)
    (st : State Svc World) :
    sockets_before_activation
      (new_calls st (activate_base_services_based_on_system_mode sys ops st).2) = true := by
  obtain ⟨probes, hp, hact⟩ := wait_for_gpu_device_calls sys st
  unfold activate_base_services_based_on_system_mode
  simp only
  split
  · rw [new_calls_append st _ probes hp, ← List.append_nil probes]
    exact sockets_before_activation_append _ _ hact (by simp)
  · next config _ =>
    have h := activate_services_calls ops config (wait_for_gpu_device sys st)
    rw [hp, List.append_assoc] at h
    rw [new_calls_append st _ _ h, sockets_before_activation_skip _ _ hact]
    exact activate_services_barrier ops config (wait_for_gpu_device sys st)

/-- A user-session activation: the calls of `activate_services` on the first configuration source,
then those on the second. -/
theorem activate_user_services_barrier (sys : Sys Err) (ops : ServiceOps Svc World Err)
    (st : State Svc World) :
    ∃ first second : List (Call Svc),
      new_calls st (activate_user_services_based_on_system_mode sys ops st).2 = first ++ second ∧
      sockets_before_activation first = true ∧ sockets_before_activation second = true := by
  unfold activate_user_services_based_on_system_mode
  split
  · exact ⟨[], [], by simp [new_calls_self], rfl, rfl⟩
  · next config _ =>
    have h1 := activate_services_calls ops config st
    have b1 := activate_services_barrier ops config st
    split
    · next e st1 heq =>
      rw [heq] at h1 b1
      exact ⟨new_calls st st1, [], by simp, b1, rfl⟩
    · next u st1 heq =>
      rw [heq] at h1 b1
      simp only at h1 b1
      split
      · exact ⟨new_calls st st1, [], by simp, b1, rfl⟩
      · next app_config _ =>
        have h2 := activate_services_calls ops app_config st1
        have b2 := activate_services_barrier ops app_config st1
        rw [h1, List.append_assoc] at h2
        exact ⟨new_calls st st1, new_calls st1 (activate_services ops app_config st1).2,
          new_calls_append st _ _ h2, b1, b2⟩

/-- A user-session run whose two configuration sources open and whose first source is activated
without error: the state it leaves is that of `activate_services` on the `SystemServerUser`
configuration followed by `activate_services` on the app-scope `SystemServer` configuration. -/
theorem serenity_main_user_both_sources (sys : Sys Err) (ops : ServiceOps Svc World Err)
    (st : State Svc World) (config app_config : ConfigFile)
    (hpledge : sys.pledge = .ok ())
    (huser : sys.open_for_system "SystemServerUser" = .ok config)
    (hfirst : (activate_services ops config st).1 = .ok ())
    (happ : sys.open_for_app "SystemServer" = .ok app_config) :
    (serenity_main sys ops true st).2 =
      (activate_services ops app_config (activate_services ops config st).2).2 := by
  cases hr : activate_services ops config st with
  | mk r st1 =>
    rw [hr] at hfirst
    simp only at hfirst
    subst hfirst
    cases hr2 : activate_services ops app_config st1 with
    | mk r2 st2 =>
      cases r2 <;>
        simp [serenity_main, activate_user_services_based_on_system_mode, hpledge, huser, hr,
          happ, hr2]

/-- A user-session run whose first source fails in `activate_services`, or whose app-scope
configuration does not open: the state it leaves is that of `activate_services` on the
`SystemServerUser` configuration alone. -/
theorem serenity_main_user_first_source (sys : Sys Err) (ops : ServiceOps Svc World Err)
    (st : State Svc World) (config : ConfigFile)
    (hpledge : sys.pledge = .ok ())
    (huser : sys.open_for_system "SystemServerUser" = .ok config)
    (hstop : (∃ e, (activate_services ops config st).1 = .error e) ∨
      (∃ e, sys.open_for_app "SystemServer" = .error e)) :
    (serenity_main sys ops true st).2 = (activate_services ops config st).2 := by
  cases hr : activate_services ops config st with
  | mk r st1 =>
    cases r with
    | error e =>
      simp [serenity_main, activate_user_services_based_on_system_mode, hpledge, huser, hr]
    | ok u =>
      rcases hstop with ⟨e, he⟩ | ⟨e, he⟩
      · rw [hr] at he
        cases he
      · simp [serenity_main, activate_user_services_based_on_system_mode, hpledge, huser, hr, he]

/-- C2, as the code has it: in every call of `activate_services`, and so in every system-boot run
of the supervisor, every `setup_sockets` call comes before the first `activate` call; in a
user-session run the calls fall into two parts with this property in each; the parts are the
calls of `activate_services` on the `SystemServerUser` configuration followed by the calls of
`activate_services` on the app-scope `SystemServer` configuration, run in the state the first
left; when the first fails or the app-scope configuration does not open, the run makes the calls
for `SystemServerUser` only. -/
theorem sockets_before_activation_per_source (sys : Sys Err) (ops : ServiceOps Svc World Err) :
    (∀ (config : ConfigFile) (st : State Svc World),
      sockets_before_activation (new_calls st (activate_services ops config st).2) = true) ∧
    (∀ st : State Svc World,
      sockets_before_activation (new_calls st (serenity_main sys ops false st).2) = true) ∧
    (∀ st : State Svc World, ∃ first second : List (Call Svc),
      new_calls st (serenity_main sys ops true st).2 = first ++ second ∧
      sockets_before_activation first = true ∧ sockets_before_activation second = true) ∧
    (∀ (st : State Svc World) (config app_config : ConfigFile),
      sys.pledge = .ok () →
      sys.open_for_system "SystemServerUser" = .ok config →
      (activate_services ops config st).1 = .ok () →
      sys.open_for_app "SystemServer" = .ok app_config →
      (serenity_main sys ops true st).2 =
          (activate_services ops app_config (activate_services ops config st).2).2 ∧
        new_calls st (serenity_main sys ops true st).2 =
          new_calls st (activate_services ops config st).2 ++
            new_calls (activate_services ops config st).2
              (activate_services ops app_config (activate_services ops config st).2).2) ∧
    (∀ (st : State Svc World) (config : ConfigFile),
      sys.pledge = .ok () →
      sys.open_for_system "SystemServerUser" = .ok config →
      ((∃ e, (activate_services ops config st).1 = .error e) ∨
        (∃ e, sys.open_for_app "SystemServer" = .error e)) →
      (serenity_main sys ops true st).2 = (activate_services ops config st).2) := by
  refine ⟨activate_services_barrier ops, ?_, ?_, ?_, ?_⟩
  · intro st
    unfold serenity_main
    split
    · simp [new_calls_self, sockets_before_activation]
    · simp only [Bool.not_false, ↓reduceIte, Bool.true_and]
      rw [determine_system_mode_ok sys st]
      simp only
      have hc := determine_system_mode_calls sys st
      split
      · rw [new_calls_congr st _ _ hc, new_calls_self]; rfl
      · have hb := activate_base_services_barrier sys ops (determine_system_mode sys st).2
        rw [← new_calls_congr st _ _ hc] at hb
        split
        · next e st2 heq => rw [heq] at hb; exact hb
        · next u st2 heq => rw [heq] at hb; exact hb
  · intro st
    unfold serenity_main
    split
    · exact ⟨[], [], by simp [new_calls_self], rfl, rfl⟩
    · simp only [Bool.not_true, Bool.false_eq_true, ↓reduceIte, Bool.false_and]
      have hb := activate_user_services_barrier sys ops st
      split
      · next e st2 heq => rw [heq] at hb; exact hb
      · next u st2 heq => rw [heq] at hb; exact hb
  · intro st config app_config hpledge huser hfirst happ
    have hstate := serenity_main_user_both_sources sys ops st config app_config hpledge huser
      hfirst happ
    refine ⟨hstate, ?_⟩
    have h1 := activate_services_calls ops config st
    have h2 := activate_services_calls ops app_config (activate_services ops config st).2
    rw [h1, List.append_assoc] at h2
    rw [hstate]
    exact new_calls_append st _ _ h2
  · intro st config hpledge huser hstop
    exact serenity_main_user_first_source sys ops st config hpledge huser hstop

/-! ### Examples -/

/-- Counterexample to C1 as stated: in the two-group configuration whose first group has no
executable and whose second group, `Echo`, is valid and enabled for the mode "text",
`activate_services` returns the error of the first group; `Echo` has no socket set up, is not in
`g_services` and is not activated. -/
theorem activate_services_malformed_first_group :
    Demo.broken_then_echo.groups = ["Broken", "Echo"] ∧
    Demo.ops.try_create Demo.broken_then_echo "Broken" = .error "no executable: Broken" ∧
    Demo.ops.try_create Demo.broken_then_echo "Echo" = .ok Demo.echo ∧
    Demo.ops.is_enabled_for_system_mode Demo.echo "text" = true ∧
    (Demo.ops.setup_sockets Demo.echo []).1 = .ok () ∧
    (Demo.ops.activate Demo.echo []).1 = .ok () ∧
    (activate_services Demo.ops Demo.broken_then_echo (Demo.state "text")).1 =
      .error "no executable: Broken" ∧
    (activate_services Demo.ops Demo.broken_then_echo (Demo.state "text")).2.g_services = [] ∧
    (activate_services Demo.ops Demo.broken_then_echo (Demo.state "text")).2.calls = [] := by
  decide

/-- Witness of C1 as amended: the same two-group configuration, with the failing group at
position 0. -/
theorem activate_services_creation_failure_witness :
    (∃ e', (activate_services Demo.ops Demo.broken_then_echo (Demo.state "text")).1 =
      .error e') ∧
    activated (new_calls (Demo.state "text")
      (activate_services Demo.ops Demo.broken_then_echo (Demo.state "text")).2) = [] ∧
    ∃ k, k ≤ 0 ∧
      sockets_set_up (new_calls (Demo.state "text")
        (activate_services Demo.ops Demo.broken_then_echo (Demo.state "text")).2) =
        enabled_services Demo.ops Demo.broken_then_echo (Demo.state "text").g_system_mode
          (Demo.broken_then_echo.groups.take k) ∧
      (activate_services Demo.ops Demo.broken_then_echo (Demo.state "text")).2.g_services =
        (Demo.state "text").g_services ++
          enabled_services Demo.ops Demo.broken_then_echo (Demo.state "text").g_system_mode
            (Demo.broken_then_echo.groups.take k) :=
  activate_services_creation_failure Demo.ops Demo.broken_then_echo (Demo.state "text") 0
    "Broken" "no executable: Broken" (by decide) (by decide)

/-- Counterexample to C7 as stated: in the configuration `Clock`, `Audio`, `Echo`, all enabled for
the mode "text", `setup_sockets` fails for `Audio`; `activate_services` returns that error, and
the other two enabled services are not activated: `Clock` had its sockets set up and is in
`g_services` but `activate` is never called on it, `Echo` has neither its sockets set up nor
`activate` called; a system-boot run on this configuration ends with the error instead of
reaching the event loop. -/
theorem activate_services_socket_failure_halts :
    enabled_services Demo.ops Demo.clock_audio_echo "text" Demo.clock_audio_echo.groups =
      [Demo.clock, Demo.audio, Demo.echo] ∧
    (Demo.ops.setup_sockets Demo.audio []).1 = .error "bind" ∧
    (Demo.ops.setup_sockets Demo.echo []).1 = .ok () ∧
    (activate_services Demo.ops Demo.clock_audio_echo (Demo.state "text")).1 = .error "bind" ∧
    (activate_services Demo.ops Demo.clock_audio_echo (Demo.state "text")).2.calls =
      [.setup_sockets Demo.clock true, .setup_sockets Demo.audio false] ∧
    (activate_services Demo.ops Demo.clock_audio_echo (Demo.state "text")).2.g_services =
      [Demo.clock] ∧
    activated (activate_services Demo.ops Demo.clock_audio_echo (Demo.state "text")).2.calls =
      [] ∧
    (serenity_main
        (Demo.sys (.ok (.ok "text\n")) 0 (.ok Demo.clock_audio_echo) (.error "") (.error ""))
        Demo.ops false (State.initial [])).1 = .error "bind" := by
  decide

/-- Witness of C7 as amended: the configuration `Clock`, `Audio`, `Echo`; the error returned is
the "bind" that `setup_sockets` gives for `Audio`. -/
theorem activate_services_socket_failure_witness :
    ((∃ e, (activate_services Demo.ops Demo.clock_audio_echo (Demo.state "text")).1 = .error e ∧
        Demo.ops.setup_sockets Demo.audio
            (setup_sockets_world Demo.ops
              (sockets_set_up (new_calls (Demo.state "text")
                (activate_services Demo.ops Demo.clock_audio_echo (Demo.state "text")).2))
              (Demo.state "text").world) =
          (.error e,
            (activate_services Demo.ops Demo.clock_audio_echo (Demo.state "text")).2.world)) ∧
      activated (new_calls (Demo.state "text")
        (activate_services Demo.ops Demo.clock_audio_echo (Demo.state "text")).2) = [] ∧
      new_calls (Demo.state "text")
          (activate_services Demo.ops Demo.clock_audio_echo (Demo.state "text")).2 =
        (sockets_set_up (new_calls (Demo.state "text")
          (activate_services Demo.ops Demo.clock_audio_echo (Demo.state "text")).2)).map
          (fun s => Call.setup_sockets s true) ++ [Call.setup_sockets Demo.audio false] ∧
      (activate_services Demo.ops Demo.clock_audio_echo (Demo.state "text")).2.g_services =
        (Demo.state "text").g_services ++ sockets_set_up (new_calls (Demo.state "text")
          (activate_services Demo.ops Demo.clock_audio_echo (Demo.state "text")).2)) ∧
    (activate_services Demo.ops Demo.clock_audio_echo (Demo.state "text")).1 = .error "bind" ∧
    (Demo.ops.setup_sockets Demo.audio []).1 = .error "bind" :=
  ⟨activate_services_socket_failure Demo.ops Demo.clock_audio_echo (Demo.state "text")
      Demo.audio (by decide),
    by decide, by decide⟩

/-- Witness of C6: the configuration `Clock`, `Crashy`, `Window`, `Echo` in the mode "text":
every group is created, no socket setup fails, `Window` is not enabled and the `activate` call of
`Crashy` fails; `Clock` and `Echo` end up in the table of processes. -/
theorem activate_services_activates_enabled_witness :
    ((activate_services Demo.ops Demo.clock_crashy_window_echo (Demo.state "text")).1 = .ok () ∧
      activated (new_calls (Demo.state "text")
        (activate_services Demo.ops Demo.clock_crashy_window_echo (Demo.state "text")).2) =
        enabled_services Demo.ops Demo.clock_crashy_window_echo (Demo.state "text").g_system_mode
          Demo.clock_crashy_window_echo.groups ∧
      sockets_set_up (new_calls (Demo.state "text")
        (activate_services Demo.ops Demo.clock_crashy_window_echo (Demo.state "text")).2) =
        enabled_services Demo.ops Demo.clock_crashy_window_echo (Demo.state "text").g_system_mode
          Demo.clock_crashy_window_echo.groups ∧
      (activate_services Demo.ops Demo.clock_crashy_window_echo (Demo.state "text")).2.world =
        activate_world Demo.ops
          (enabled_services Demo.ops Demo.clock_crashy_window_echo
            (Demo.state "text").g_system_mode Demo.clock_crashy_window_echo.groups)
          (setup_sockets_world Demo.ops
            (enabled_services Demo.ops Demo.clock_crashy_window_echo
              (Demo.state "text").g_system_mode Demo.clock_crashy_window_echo.groups)
            (Demo.state "text").world) ∧
      new_calls (Demo.state "text")
          (activate_services Demo.ops Demo.clock_crashy_window_echo (Demo.state "text")).2 =
        (enabled_services Demo.ops Demo.clock_crashy_window_echo
            (Demo.state "text").g_system_mode Demo.clock_crashy_window_echo.groups).map
            (fun s => Call.setup_sockets s true) ++
          activate_record Demo.ops
            (enabled_services Demo.ops Demo.clock_crashy_window_echo
              (Demo.state "text").g_system_mode Demo.clock_crashy_window_echo.groups)
            (setup_sockets_world Demo.ops
              (enabled_services Demo.ops Demo.clock_crashy_window_echo
                (Demo.state "text").g_system_mode Demo.clock_crashy_window_echo.groups)
              (Demo.state "text").world) ∧
      (activate_services Demo.ops Demo.clock_crashy_window_echo (Demo.state "text")).2.g_services =
        (Demo.state "text").g_services ++
          enabled_services Demo.ops Demo.clock_crashy_window_echo
            (Demo.state "text").g_system_mode Demo.clock_crashy_window_echo.groups) ∧
    (activate_services Demo.ops Demo.clock_crashy_window_echo (Demo.state "text")).2.calls =
      [.setup_sockets Demo.clock true, .setup_sockets Demo.crashy true,
        .setup_sockets Demo.echo true, .activate Demo.clock true, .activate Demo.crashy false,
        .activate Demo.echo true] ∧
    (activate_services Demo.ops Demo.clock_crashy_window_echo (Demo.state "text")).2.world =
      [(100, Demo.clock), (101, Demo.echo)] :=
  ⟨activate_services_activates_enabled Demo.ops Demo.clock_crashy_window_echo (Demo.state "text")
      (by
        intro name h
        have h' : name ∈ ["Clock", "Crashy", "Window", "Echo"] := h
        simp only [List.mem_cons, List.mem_singleton, List.not_mem_nil, or_false] at h'
        rcases h' with rfl | rfl | rfl | rfl
        · exact ⟨Demo.clock, by decide⟩
        · exact ⟨Demo.crashy, by decide⟩
        · exact ⟨Demo.window, by decide⟩
        · exact ⟨Demo.echo, by decide⟩)
      (by
        intro s h
        have hnew : new_calls (Demo.state "text")
            (activate_services Demo.ops Demo.clock_crashy_window_echo (Demo.state "text")).2 =
            [.setup_sockets Demo.clock true, .setup_sockets Demo.crashy true,
              .setup_sockets Demo.echo true, .activate Demo.clock true,
              .activate Demo.crashy false, .activate Demo.echo true] := by decide
        rw [hnew] at h
        simp at h),
    by decide, by decide⟩

/-- Witness of C2 as amended: a user-session run in which `SystemServerUser` holds `Clock` and the
app-scope `SystemServer` configuration holds `Echo`: the calls for `Clock` come first, those for
`Echo` second. -/
theorem sockets_before_activation_per_source_witness :
    ((serenity_main
          (Demo.sys (.error "") 0 (.error "") (.ok Demo.only_clock) (.ok Demo.only_echo))
          Demo.ops true (State.initial [])).2 =
        (activate_services Demo.ops Demo.only_echo
          (activate_services Demo.ops Demo.only_clock (State.initial [])).2).2 ∧
      new_calls (State.initial [])
          (serenity_main
            (Demo.sys (.error "") 0 (.error "") (.ok Demo.only_clock) (.ok Demo.only_echo))
            Demo.ops true (State.initial [])).2 =
        new_calls (State.initial [])
            (activate_services Demo.ops Demo.only_clock (State.initial [])).2 ++
          new_calls (activate_services Demo.ops Demo.only_clock (State.initial [])).2
            (activate_services Demo.ops Demo.only_echo
              (activate_services Demo.ops Demo.only_clock (State.initial [])).2).2) ∧
    new_calls (State.initial [])
        (activate_services Demo.ops Demo.only_clock (State.initial [])).2 =
      [.setup_sockets Demo.clock true, .activate Demo.clock true] ∧
    new_calls (activate_services Demo.ops Demo.only_clock (State.initial [])).2
        (activate_services Demo.ops Demo.only_echo
          (activate_services Demo.ops Demo.only_clock (State.initial [])).2).2 =
      [.setup_sockets Demo.echo true, .activate Demo.echo true] :=
  ⟨(sockets_before_activation_per_source
        (Demo.sys (.error "") 0 (.error "") (.ok Demo.only_clock) (.ok Demo.only_echo))
        Demo.ops).2.2.2.1 (State.initial []) Demo.only_clock Demo.only_echo rfl rfl
        (by decide) rfl,
    by decide, by decide⟩

/-- Counterexample to C2 as stated: a user-session run in which `SystemServerUser` holds `Clock`
and the app-scope `SystemServer` configuration holds `Echo`: the sockets of `Echo` are set up
after `Clock` has been activated. -/
theorem user_session_sockets_after_activation :
    (serenity_main (Demo.sys (.error "") 0 (.error "") (.ok Demo.only_clock) (.ok Demo.only_echo))
        Demo.ops true (State.initial [])).2.calls =
      [.setup_sockets Demo.clock true, .activate Demo.clock true,
        .setup_sockets Demo.echo true, .activate Demo.echo true] ∧
    sockets_before_activation
      (serenity_main (Demo.sys (.error "") 0 (.error "") (.ok Demo.only_clock) (.ok Demo.only_echo))
        Demo.ops true (State.initial [])).2.calls = false := by
  decide

/-- Witness of C8: process 999 is not in the registry. -/
theorem sigchld_handler_unknown_pid_witness :
    sigchld_handler.body Demo.ops 999 0 Demo.running = (.next, Demo.running) ∧
    sigchld_handler Demo.ops ((999, 0) :: [(101, 0), (0, 0)]) Demo.running =
      sigchld_handler Demo.ops [(101, 0), (0, 0)] Demo.running :=
  sigchld_handler_unknown_pid Demo.ops Demo.running 999 0 [(101, 0), (0, 0)] (by decide)
    (by decide)

/-- Witness of C9: three children are pending, of which process 999 is not in the registry and
the `did_exit` of process 100 returns an error; all three are consumed, and the `waitpid` result
after the `0` is not. -/
theorem sigchld_handler_drains_witness :
    sigchld_handler Demo.ops ([(100, 9), (999, 0), (101, 0)] ++ (0, 0) :: [(55, 0)])
        Demo.running =
      some (reap_in_turn Demo.ops [(100, 9), (999, 0), (101, 0)] Demo.running, [(55, 0)]) ∧
    (reap_in_turn Demo.ops [(100, 9), (999, 0), (101, 0)] Demo.running).calls =
      [.did_exit Demo.clock 9 false, .did_exit Demo.echo 0 true] :=
  ⟨sigchld_handler_drains Demo.ops [(100, 9), (999, 0), (101, 0)] 0 [(55, 0)] (by decide)
      Demo.running,
    by decide⟩

end SystemServer
